import Mathlib

/-
  Verification development for the Sukoon Saarthi conversational webhook
  dispatcher (Node.js/Express).  This file shallowly embeds, in Lean 4, the
  conversation-conflict detection and session-routing engine of the
  repository:

    * utils/messageUtils.js     (standardizePhoneNumber, parseProxyCommand)
    * utils/conversationUtils.js (CONVERSATION_PRIORITIES,
                                  detectConversationConflicts,
                                  handleDisambiguation,
                                  generateDisambiguationMessage)
    * models/sessionStore.js    (in-memory session maps, TTL sweep)
    * models/dbModels.js        (ReminderModel.getLatestReminder, both
                                 bindings of the duplicated object key)
    * routes/webhookRoutes.js   (the router.post('/') handler, PART 0..9)

  JavaScript strings are modelled as `List Char`; JavaScript objects/maps as
  functions `List Char -> Option _`; the DynamoDB / Twilio / OpenAI / check-in
  collaborators as oracle values carried in an `Env` record (one field per
  awaited call site, so two calls to the same collaborator may observe
  different answers, as they can at run time).  Call sites that can throw
  into the route boundary return `Except Fault _` or are governed by the
  `handlerFault` oracle; collaborators whose source catches internally
  (sendWhatsAppMessage, processCheckInResponse, checkUserExists,
  getLatestReminder, markReminderSkipped, getAIResponse) are modelled as
  non-throwing values.
-/

set_option maxHeartbeats 2000000

/-- JavaScript strings, modelled as their character lists. -/
abbrev Str := List Char

/-- ASCII upper-case test used by the `toLowerCase` model. -/
def isUpperAZ (c : Char) : Bool := 'A' ≤ c && c ≤ 'Z'

/-- One character of `String.prototype.toLowerCase` (ASCII range, which is
the only range the router ever compares against). -/
def jsCharLower (c : Char) : Char :=
  if isUpperAZ c then Char.ofNat (c.toNat + 32) else c

/-- `s.toLowerCase()`. -/
def jsToLower (s : Str) : Str := s.map jsCharLower

/-- Whitespace recognised by the `trim`/`parseInt` models (ASCII subset). -/
def isJsWs (c : Char) : Bool := c = ' ' || c = '\t' || c = '\n' || c = '\r'

/-- `s.trim()`. -/
def jsTrim (s : Str) : Str :=
  ((s.dropWhile isJsWs).reverse.dropWhile isJsWs).reverse

/-- `leadsWith pat s` is `s.startsWith(pat)`. -/
def leadsWith : Str → Str → Bool
  | [], _ => true
  | _ :: _, [] => false
  | p :: ps, c :: cs => p == c && leadsWith ps cs

/-- `s.replace(pat, '')` for a plain-string pattern: removes the FIRST
occurrence of `pat` anywhere in `s` (this is what the JavaScript source
does; it is not restricted to a leading occurrence). -/
def replaceFirst (pat : Str) : Str → Str
  | [] => []
  | c :: rest =>
    if leadsWith pat (c :: rest) then (c :: rest).drop pat.length
    else c :: replaceFirst pat rest

/-- `containsSub pat s` is `s.includes(pat)`. -/
def containsSub (pat : Str) : Str → Bool
  | [] => pat.isEmpty
  | c :: rest => leadsWith pat (c :: rest) || containsSub pat rest

/-- The transport marker stripped by the identity normalizer. -/
def whatsappPre : Str := "whatsapp:".data

/-- utils/messageUtils.js `standardizePhoneNumber`:
`phoneNumber.replace('whatsapp:', '')`. -/
def standardizePhoneNumber (phoneNumber : Str) : Str :=
  replaceFirst whatsappPre phoneNumber

/-- ASCII digit test (`/^\d+$/` building block). -/
def isDigitCh (c : Char) : Bool := '0' ≤ c && c ≤ '9'

/-- `/^\d+$/.test(s)`: non-empty and all digits. -/
def isAllDigits (s : Str) : Bool := !s.isEmpty && s.all isDigitCh

def digitVal (c : Char) : Nat := c.toNat - '0'.toNat

def hexDigitVal (c : Char) : Option Nat :=
  if ('A' ≤ c && c ≤ 'F') then some (10 + (c.toNat - 'A'.toNat))
  else if ('a' ≤ c && c ≤ 'f') then some (10 + (c.toNat - 'a'.toNat))
  else if isDigitCh c then some (digitVal c)
  else none

def decDigitsAcc (acc : Nat) : Str → Nat
  | [] => acc
  | c :: cs =>
    if isDigitCh c then decDigitsAcc (acc * 10 + digitVal c) cs else acc

def hexDigitsAcc (acc : Nat) : Str → Nat
  | [] => acc
  | c :: cs =>
    match hexDigitVal c with
    | some v => hexDigitsAcc (acc * 16 + v) cs
    | none => acc

/-- JavaScript `parseInt(s)` with no radix argument: skip leading whitespace,
read an optional sign, then either a `0x`/`0X` hexadecimal literal or a run
of decimal digits; trailing garbage is ignored; `none` models `NaN`. -/
def jsParseInt (s : Str) : Option Int :=
  let t := s.dropWhile isJsWs
  let signed : Int × Str :=
    match t with
    | '-' :: r => (-1, r)
    | '+' :: r => (1, r)
    | r => (1, r)
  match signed.2 with
  | '0' :: 'x' :: r =>
    match r with
    | c :: _ => if (hexDigitVal c).isSome then
        some (signed.1 * (hexDigitsAcc 0 (r.takeWhile (fun d => (hexDigitVal d).isSome)))) else none
    | [] => none
  | '0' :: 'X' :: r =>
    match r with
    | c :: _ => if (hexDigitVal c).isSome then
        some (signed.1 * (hexDigitsAcc 0 (r.takeWhile (fun d => (hexDigitVal d).isSome)))) else none
    | [] => none
  | r =>
    match r with
    | c :: _ => if isDigitCh c then
        some (signed.1 * (decDigitsAcc 0 (r.takeWhile isDigitCh))) else none
    | [] => none

/-- utils/messageUtils.js `parseProxyCommand`: messages of the shape
`for:<phone> <command>` (case-insensitive marker). -/
def indexOfSpace (s : Str) : Option Nat :=
  s.findIdx? (fun c => c = ' ')

def parseProxyCommand (message : Str) : Option (Str × Str) :=
  if leadsWith "for:".data (jsToLower message) then
    match indexOfSpace message with
    | none => none
    | some firstSpace =>
      some (jsTrim ((message.drop 4).take (firstSpace - 4)),
            jsTrim (message.drop (firstSpace + 1)))
  else none

/-- The eight conversation kinds of utils/conversationUtils.js. -/
inductive ConvType where
  | medication_reminder
  | symptom_emergency
  | check_in_response
  | symptom_assessment
  | medication_management
  | account_creation
  | menu_navigation
  | general_query
deriving DecidableEq, Repr

/-- utils/conversationUtils.js `CONVERSATION_PRIORITIES` (higher = wins). -/
def CONVERSATION_PRIORITIES : ConvType → Nat
  | .medication_reminder => 100
  | .symptom_emergency => 90
  | .check_in_response => 80
  | .symptom_assessment => 70
  | .medication_management => 60
  | .account_creation => 50
  | .menu_navigation => 40
  | .general_query => 10

/-- A reminder row as the router sees it (models/dbModels.js REMINDERS
table item).  `responded` is `Option Bool` because the attribute may be
absent on the stored item. -/
structure Reminder where
  reminderId : Str := []
  medicine : Str := []
  responded : Option Bool := none
  createdAt : Int := 0
deriving DecidableEq, Repr

/-- JavaScript truthiness of the `responded` attribute:
`!latestReminder.responded` treats`undefined` like `false`. -/
def respondedTruthy : Option Bool → Bool
  | some b => b
  | none => false

/-- Account-creation wizard session (models/sessionStore.js
`accountCreationSessions` values; only the fields the router reads). -/
structure AccountSession where
  stage : Str := []
  timestamp : Option Nat := none
deriving DecidableEq, Repr

/-- A medication-wizard `stage` value, which in the source is either a
number (1, 2) or a string such as `"update_dosage"`. -/
inductive MedStage where
  | num (n : Nat)
  | str (s : Str)
deriving DecidableEq, Repr

/-- `stage.toString()`. -/
def MedStage.strForm : MedStage → Str
  | .num n => Nat.toDigits 10 n
  | .str s => s

/-- JavaScript truthiness of a stage value (`0` and `''` are falsy). -/
def MedStage.truthy : MedStage → Bool
  | .num n => n != 0
  | .str s => !s.isEmpty

/-- Medication-wizard session (models/sessionStore.js
`medicationSessions` values). -/
structure MedSession where
  stage : Option MedStage := none
  timestamp : Option Nat := none
deriving DecidableEq, Repr

/-- Check-in session shape, modelled from the spec ("is there an active
check-in conversation for this identity", `conversationState` carries
`initial` / `follow_up_*` / `completed`); the backing module
services/checkInService.js only surfaces `conversationState` to the
router. -/
structure CheckInSession where
  conversationState : Option Str := none
deriving DecidableEq, Repr

/-- The `data` payload stored inside an active-conversation record: the
underlying session, restricted to the fields any later consumer of the
record actually reads (the router reads `data.stage`). -/
inductive ConvData where
  | acctD (stage : Str)
  | userD (type stage : Option Str)
  | medD (stage : Option MedStage)
  | checkinD (conversationState : Option Str)
  | remD (r : Reminder)
deriving DecidableEq, Repr

/-- Active-conversation record produced by `detectConversationConflicts`. -/
structure ActiveConv where
  type : ConvType
  priority : Nat
  data : ConvData
  description : Str
deriving DecidableEq, Repr

/-- General dialog session (models/sessionStore.js `userSessions` values):
symptom assessments, follow-ups, menu markers and pending disambiguations
all live here.  Absent JavaScript properties are `none` / `[]`. -/
structure UserSession where
  type : Option Str := none
  stage : Option Str := none
  options : List ActiveConv := []
  originalResponse : Str := []
  reminderData : Option Reminder := none
  checkInData : Option CheckInSession := none
  timestamp : Option Nat := none
deriving DecidableEq, Repr

/-- JavaScript object used as a string-keyed map. -/
def SMap (α : Type) : Type := Str → Option α

def mset {α : Type} (m : SMap α) (k : Str) (v : α) : SMap α :=
  fun x => if x = k then some v else m x

def mdel {α : Type} (m : SMap α) (k : Str) : SMap α :=
  fun x => if x = k then none else m x

def memp {α : Type} : SMap α := fun _ => none

/-- The object literal `{ [k]: v }` (where `v` may be `undefined`). -/
def msingle {α : Type} (k : Str) (v : Option α) : SMap α :=
  fun x => if x = k then v else none

/-- The process-wide mutable state the router touches: the three session
maps of models/sessionStore.js plus the active check-in session map
(services side). -/
structure Stores where
  accountCreationSessions : SMap AccountSession
  userSessions : SMap UserSession
  medicationSessions : SMap MedSession
  checkIns : SMap CheckInSession

/-- models/sessionStore.js `setUserSession`: spread + overwrite with a
fresh `timestamp: Date.now()`. -/
def setUserSession (st : Stores) (k : Str) (v : UserSession) (now : Nat) : Stores :=
  { st with userSessions := mset st.userSessions k { v with timestamp := some now } }

/-- models/sessionStore.js `deleteUserSession`. -/
def deleteUserSession (st : Stores) (k : Str) : Stores :=
  { st with userSessions := mdel st.userSessions k }

/-- models/sessionStore.js `setAccountCreationSession`. -/
def setAccountCreationSession (st : Stores) (k : Str) (v : AccountSession) (now : Nat) : Stores :=
  { st with accountCreationSessions := mset st.accountCreationSessions k { v with timestamp := some now } }

/-- models/sessionStore.js `setMedicationSession`. -/
def setMedicationSession (st : Stores) (k : Str) (v : MedSession) (now : Nat) : Stores :=
  { st with medicationSessions := mset st.medicationSessions k { v with timestamp := some now } }

/-- Modelled from the spec: services/checkInService.js (absent from the
sources) `clearActiveCheckInSession`, a plain delete on the active
check-in session map. -/
def clearActiveCheckInSession (st : Stores) (k : Str) : Stores :=
  { st with checkIns := mdel st.checkIns k }

/-- models/sessionStore.js `EXPIRY_TIME`: 30 minutes in milliseconds. -/
def EXPIRY_TIME : Nat := 30 * 60 * 1000

/-- One key of the sweep in models/sessionStore.js
`cleanupExpiredSessions`: first stamp a missing timestamp with `now`,
then drop the entry if `now - timestamp > EXPIRY_TIME`. -/
def sweepEntry {α : Type} (getTs : α → Option Nat) (putTs : α → Nat → α)
    (now : Nat) : Option α → Option α
  | none => none
  | some s =>
    let s' := match getTs s with
      | none => putTs s now
      | some _ => s
    if EXPIRY_TIME < now - ((getTs s').getD now) then none else some s'

/-- models/sessionStore.js `cleanupExpiredSessions`, rendered pointwise
over the three session maps (the source iterates the keys of each map
doing exactly this per key). -/
def cleanupExpiredSessions (st : Stores) (now : Nat) : Stores :=
  { accountCreationSessions := fun k =>
      sweepEntry (fun s => s.timestamp) (fun s t => { s with timestamp := some t }) now
        (st.accountCreationSessions k)
    userSessions := fun k =>
      sweepEntry (fun s => s.timestamp) (fun s t => { s with timestamp := some t }) now
        (st.userSessions k)
    medicationSessions := fun k =>
      sweepEntry (fun s => s.timestamp) (fun s t => { s with timestamp := some t }) now
        (st.medicationSessions k)
    checkIns := st.checkIns }

/-- Rendering of an optional string inside a template literal
(`${undefined}` prints as "undefined"). -/
def showOptStr : Option Str → Str
  | some s => s
  | none => "undefined".data

/-- The kind a general dialog session is classified as by
utils/conversationUtils.js lines 49-63: `type == 'symptom'` or
`'follow_up'` gives symptom_assessment; else stage `'main_menu'` or
`'medication_menu'` gives menu_navigation; else general_query. -/
def userConversationType (s : UserSession) : ConvType :=
  if s.type = some "symptom".data then .symptom_assessment
  else if s.type = some "follow_up".data then .symptom_assessment
  else if s.stage = some "main_menu".data ∨ s.stage = some "medication_menu".data then
    .menu_navigation
  else .general_query

/-- The description string attached alongside `userConversationType`. -/
def userConversationDescription (s : UserSession) : Str :=
  if s.type = some "symptom".data then
    "Symptom assessment (stage: ".data ++ showOptStr s.stage ++ ")".data
  else if s.type = some "follow_up".data then
    "Symptom follow-up (stage: ".data ++ showOptStr s.stage ++ ")".data
  else if s.stage = some "main_menu".data ∨ s.stage = some "medication_menu".data then
    "Menu navigation (".data ++ showOptStr s.stage ++ ")".data
  else "Unknown conversation".data

/-- The `activeConversations` array of
utils/conversationUtils.js `detectConversationConflicts` as pushed, in
source order, before sorting. -/
def rawConversations (accountCreationSession : Option AccountSession)
    (userSession : Option UserSession) (medicationSession : Option MedSession)
    (checkInSession : Option CheckInSession) (latestReminder : Option Reminder) :
    List ActiveConv :=
  (match accountCreationSession with
   | some a =>
     [{ type := .account_creation, priority := CONVERSATION_PRIORITIES .account_creation,
        data := .acctD a.stage,
        description := "Account creation (stage: ".data ++ a.stage ++ ")".data }]
   | none => []) ++
  (match userSession with
   | some u =>
     [{ type := userConversationType u,
        priority := CONVERSATION_PRIORITIES (userConversationType u),
        data := .userD u.type u.stage,
        description := userConversationDescription u }]
   | none => []) ++
  (match medicationSession with
   | some m =>
     [{ type := .medication_management,
        priority := CONVERSATION_PRIORITIES .medication_management,
        data := .medD m.stage,
        description := "Medication management (stage: ".data ++
          (match m.stage with
           | some ms => ms.strForm
           | none => "undefined".data) ++ ")".data }]
   | none => []) ++
  (match checkInSession with
   | some c =>
     [{ type := .check_in_response,
        priority := CONVERSATION_PRIORITIES .check_in_response,
        data := .checkinD c.conversationState,
        description := "Check-in (state: ".data ++ showOptStr c.conversationState ++ ")".data }]
   | none => []) ++
  (match latestReminder with
   | some r =>
     if respondedTruthy r.responded then []
     else
       [{ type := .medication_reminder,
          priority := CONVERSATION_PRIORITIES .medication_reminder,
          data := .remD r,
          description := "Medication reminder (".data ++ r.medicine ++ ")".data }]
   | none => [])

/-- The comparator order of `activeConversations.sort((a, b) => b.priority
- a.priority)`: `a` precedes `b` when `a.priority >= b.priority`. -/
def convGE (a b : ActiveConv) : Prop := b.priority ≤ a.priority

instance : DecidableRel convGE := fun a b => Nat.decLe b.priority a.priority

instance : IsTotal ActiveConv convGE :=
  ⟨fun a b => Nat.le_total b.priority a.priority⟩

instance : IsTrans ActiveConv convGE :=
  ⟨fun _ _ _ h1 h2 => le_trans h2 h1⟩

/-- Result shape of `detectConversationConflicts`. -/
structure ConflictInfo where
  hasConflict : Bool
  activeConversations : List ActiveConv
  highestPriority : Option ActiveConv
deriving DecidableEq, Repr

/-- utils/conversationUtils.js `detectConversationConflicts`.  The session
store and the active check-in map are passed in, and the answer of the
awaited `getLatestReminder(standardizedPhone)` call is the
`latestReminder` argument.  The JavaScript in-place `.sort` with a
consistent comparator over records of pairwise-distinct priorities is
rendered as an insertion sort in the comparator order. -/
def detectConversationConflicts (userPhone : Str) (st : Stores)
    (activeCheckInSessions : SMap CheckInSession)
    (latestReminder : Option Reminder) : ConflictInfo :=
  let standardizedPhone := replaceFirst whatsappPre userPhone
  let raw := rawConversations
    (st.accountCreationSessions standardizedPhone)
    (st.userSessions standardizedPhone)
    (st.medicationSessions standardizedPhone)
    (activeCheckInSessions standardizedPhone)
    latestReminder
  let sorted := List.insertionSort convGE raw
  { hasConflict := decide (1 < sorted.length)
    activeConversations := sorted
    highestPriority := sorted.head? }

/-- Result shape of `handleDisambiguation`. -/
structure DisambiguationResult where
  needsDisambiguation : Bool
  action : Str
  targetConversation : Option ActiveConv := none
  conflictType : Option Str := none
  options : List ActiveConv := []
deriving DecidableEq, Repr

/-- The fixed medication-response vocabulary (case already normalised). -/
def vocabResponse (s : Str) : Bool :=
  s = "yes".data || s = "no".data || s = "taken".data || s = "missed".data

/-- utils/conversationUtils.js `handleDisambiguation` lines 119-175. -/
def handleDisambiguation (userResponse : Str) (conflictInfo : ConflictInfo) :
    DisambiguationResult :=
  let normalizedResponse := jsTrim (jsToLower userResponse)
  if conflictInfo.hasConflict = false then
    { needsDisambiguation := false, action := "proceed".data,
      targetConversation := conflictInfo.highestPriority }
  else
    let conversations := conflictInfo.activeConversations
    let case2 : DisambiguationResult :=
      if isAllDigits normalizedResponse &&
         conversations.any (fun conv => conv.type == ConvType.menu_navigation) &&
         conversations.any (fun conv => conv.type == ConvType.symptom_assessment) then
        { needsDisambiguation := true, action := "ask".data,
          conflictType := some "menu_vs_symptom".data,
          options := conversations.filter (fun conv =>
            conv.type == ConvType.menu_navigation ||
            conv.type == ConvType.symptom_assessment) }
      else
        { needsDisambiguation := true, action := "ask".data,
          conflictType := some "general".data,
          options := conversations }
    if vocabResponse normalizedResponse then
      match conversations.find? (fun conv => conv.type == ConvType.medication_reminder) with
      | some medicationReminder =>
        { needsDisambiguation := false, action := "proceed".data,
          targetConversation := some medicationReminder }
      | none => case2
    else case2

/-- The numbered option list inside the general disambiguation message. -/
def joinOptionLines (opts : List ActiveConv) : Str :=
  (opts.enum.map (fun p =>
    Nat.toDigits 10 (p.1 + 1) ++ ". ".data ++ p.2.description ++ ['\n'])).flatten

/-- utils/conversationUtils.js `generateDisambiguationMessage`. -/
def generateDisambiguationMessage (d : DisambiguationResult) : Str :=
  if d.conflictType = some "menu_vs_symptom".data then
    ("I noticed you sent a number, but you have both a menu selection and a symptom assessment in progress. What are you responding to?\n\n".data ++
     "1. Menu selection\n2. Symptom assessment\n\nPlease reply with 1 or 2.".data)
  else
    ("I noticed you have multiple conversations active. What are you responding to?\n\n".data ++
     joinOptionLines d.options ++
     "\nPlease reply with the number of your choice.".data)

/-- A REMINDERS-table row for the `getLatestReminder` query model. -/
structure ReminderItem where
  reminderId : Str := []
  userPhone : Str := []
  medicine : Str := []
  createdAt : Int := 0
  responded : Option Bool := none
deriving DecidableEq, Repr

/-- A lookup failure tag (a thrown JavaScript error, reduced to its
message). -/
inductive Fault where
  | err (tag : Str)
deriving DecidableEq, Repr

/-- DynamoDB `query` with `ScanIndexForward: false, Limit: 1` over the
UserPhoneIndex slice for one identity (`items`, most recent first):
DynamoDB evaluates at most `Limit` items and applies the
FilterExpression afterwards. -/
def dynamoQueryLimit1 (items : List ReminderItem) (pred : ReminderItem → Bool) :
    List ReminderItem :=
  (items.take 1).filter pred

/-- FilterExpression of the FIRST `getLatestReminder` binding in
models/dbModels.js (lines 582-616): `createdAt > now-30min AND responded
= false`. -/
def thirtyFilter (now : Int) (r : ReminderItem) : Bool :=
  (now - 30 * 60 * 1000 < r.createdAt) && (r.responded == some false)

/-- FilterExpression of the SECOND `getLatestReminder` binding in
models/dbModels.js (lines 623-658): `createdAt > now-60min AND (responded
= false OR attribute_not_exists(responded))`. -/
def sixtyFilter (now : Int) (r : ReminderItem) : Bool :=
  (now - 60 * 60 * 1000 < r.createdAt) &&
  (r.responded == some false || r.responded == none)

/-- The 30-minute `getLatestReminder` (first binding of the duplicated
object key).  `db` is the query outcome: `.error` models a thrown lookup
error, which the function catches, returning null. -/
def getLatestReminder_v30 (db : Except Fault (List ReminderItem)) (now : Int) :
    Option ReminderItem :=
  match db with
  | .error _ => none
  | .ok items => (dynamoQueryLimit1 items (thirtyFilter now)).head?

/-- The 60-minute `getLatestReminder` (second binding of the duplicated
object key). -/
def getLatestReminder_v60 (db : Except Fault (List ReminderItem)) (now : Int) :
    Option ReminderItem :=
  match db with
  | .error _ => none
  | .ok items => (dynamoQueryLimit1 items (sixtyFilter now)).head?

/-- The `getLatestReminder` actually reachable through
`ReminderModel.getLatestReminder`: in a JavaScript object literal a
duplicated key binds to the LAST value, so the 60-minute definition
shadows the 30-minute one. -/
def ReminderModel_getLatestReminder : Except Fault (List ReminderItem) → Int → Option ReminderItem :=
  getLatestReminder_v60

/-- Entry points of external dialog handlers the router `return await`s
into (handlers/..), plus the check-in / follow-up processors and the AI
fallback responder. -/
inductive HandlerId where
  | handleMedicationTaken
  | handleMedicationMissed
  | continueAccountCreation
  | startAccountCreation
  | continueAddMedication
  | continueMedicationUpdate
  | continueMedicationDeletion
  | startAddMedication
  | startMedicationUpdate
  | startMedicationDeletion
  | continueSymptomAssessment
  | startSymptomAssessment
  | showSymptomStatus
  | handleFollowUpResponse
  | handleMainMenuSelection
  | handleMedicationMenuSelection
  | handleMedicationInfoSelection
  | showWelcomeMenu
  | showMedicationHistory
  | processCheckInResponse
  | processFollowUpResponse
  | handleProxyCommand
  | getAIResponse
deriving DecidableEq, Repr

/-- Non-dispatch terminal reply paths of the router (each one is a
`return res.status(200).send(..)` in the source, preceded by its own
outbound message). -/
inductive ReplyId where
  | rvcReprompt
  | generalReprompt (optionCount : Nat)
  | rvcAsk
  | generalAsk
  | disambigFallback
  | disambigErrorFallback
  | medicationErrorReply
  | mainMenuReturn
  | createAccountPrompt
  | medicationInfoReply
  | dailyReportReply
deriving DecidableEq, Repr

/-- The single routing decision a terminated invocation took: either a
dispatch into a dialog handler (with the message body handed to it, which
is the replayed original text on post-disambiguation paths) or one
terminal reply. -/
inductive RouteTarget where
  | handler (h : HandlerId) (body : Str)
  | reply (r : ReplyId)
deriving DecidableEq, Repr

/-- Observable effects of one invocation, in order. -/
inductive Event where
  | sent (dest body : Str)
  | terminal (t : RouteTarget)
  | respond (code : Nat)
  | reminderSkipped (reminderId : Str) (reason : Str)
deriving DecidableEq, Repr

/-- Result of `processCheckInResponse` (services side; the source catches
internally and always resolves to an object of this shape). -/
structure CheckInResult where
  success : Bool
  followUp : Str := []
  conversationComplete : Bool := false
deriving DecidableEq, Repr

/-- Result of `followUpService.processFollowUpResponse`. -/
structure FollowUpResult where
  success : Bool
  recommendations : Str := []
  isCompleted : Bool := false
deriving DecidableEq, Repr

/-- An active symptom assessment row (only the id is read). -/
structure Assessment where
  assessmentId : Str := []
deriving DecidableEq, Repr

/-- Result of `proxyService.processProxyMessage`. -/
structure ProxyResult where
  success : Bool
  message : Str := []
  notifyParent : Bool := false
deriving DecidableEq, Repr

/-- Answers of every external call the route handler awaits, one field
per call site (so the two `getLatestReminder` awaits may disagree, as
they can at run time).  Sites whose exceptions would escape to the route
boundary are `Except Fault _` or are governed by `handlerFault`. -/
structure Env where
  reminderAtDetect : Option Reminder
  reminderAtFastPath : Option Reminder
  checkInRespDisambig : CheckInResult
  checkInRespGeneralChoice : CheckInResult
  checkInRespProbe : CheckInResult
  activeAssessments : List Assessment
  followUpResult : FollowUpResult
  userExists : Bool
  medInfoOutcome : Except Fault (Option Str)
  reportOutcome : Option Str
  aiResponse : Str
  proxyResult : Except Fault ProxyResult
  handlerFault : HandlerId → Option Fault

/-- Outcome of one pass through the route handler body: final store
state, ordered effects, and the escaped exception if any reached the
route boundary. -/
structure RunOut where
  stores : Stores
  events : List Event
  fault : Option Fault := none

/-- The envelope of one inbound message (`req.body`), plus the clock. -/
structure Req where
  From : Str
  Body : Str
  now : Nat := 0

/-- `return await <handler>(req, res)` with no surrounding try/catch: a
handler exception escapes to the route boundary. -/
def dispatchTo (env : Env) (st : Stores) (h : HandlerId) (body : Str) : RunOut :=
  match env.handlerFault h with
  | some f => { stores := st, events := [], fault := some f }
  | none =>
    { stores := st, events := [.terminal (.handler h body), .respond 200] }

/-- menuHandler.sendMainMenu: writes `{ stage: 'main_menu' }` as the user
session and sends the menu text (its own send never throws). -/
def mainMenuText : Str :=
  "What would you like to do today?\n\n1. Check symptoms\n2. Manage medications\n\nPlease reply with the number of your choice.".data

def sendMainMenu (st : Stores) (frm : Str) (now : Nat) : Stores × List Event :=
  (setUserSession st frm { stage := some "main_menu".data } now,
   [.sent frm mainMenuText])

def rvcRepromptText : Str :=
  "Please reply with either 1 for medication reminder or 2 for check-in conversation.".data

def medResponseErrText : Str :=
  "Sorry, there was an error processing your medication response. Please try again later.".data

def skipReasonText : Str := "User chose to respond to check-in instead".data

def generalRepromptText (n : Nat) : Str :=
  "Please select a valid option between 1 and ".data ++ Nat.toDigits 10 n ++ ".".data

def generalCatchText : Str :=
  "I'm sorry, I had trouble understanding your response. Let's start over.".data

def disambigFallbackText : Str :=
  "I'm not sure how to process your response. Let's start fresh.".data

def createAccountText : Str :=
  "Welcome to Sukoon Saarthi! It seems you don't have an account yet.\n\nTo create an account, please reply with \"create account\".".data

def rvcAskText (medicine : Str) : Str :=
  "I noticed you have both a medication reminder and an active check-in conversation. Which one are you responding to?\n\n1. Medication reminder (".data ++
  medicine ++ ")\n2. Check-in conversation\n\nPlease reply with 1 or 2.".data

/-- The catch block of the general-disambiguation try (webhookRoutes PART
0, lines 230-240): delete both session keys, apologise, show the main
menu, answer 200. -/
def generalCatchOut (st : Stores) (frm stdFrm : Str) (now : Nat) : RunOut :=
  let st1 := deleteUserSession (deleteUserSession st frm) stdFrm
  let menu := sendMainMenu st1 frm now
  { stores := menu.1,
    events := [.sent frm generalCatchText] ++ menu.2 ++
      [.terminal (.reply .disambigErrorFallback), .respond 200] }

/-- The "couldn't handle the selected option" fallback (webhookRoutes PART
0, lines 226-228). -/
def disambigFallbackOut (st : Stores) (frm : Str) (now : Nat) : RunOut :=
  let menu := sendMainMenu st frm now
  { stores := menu.1,
    events := [.sent frm disambigFallbackText] ++ menu.2 ++
      [.terminal (.reply .disambigFallback), .respond 200] }

/-- A dispatch inside the general-disambiguation try: a handler exception
is caught by that try's catch block. -/
def generalTryDispatch (env : Env) (st : Stores) (frm stdFrm : Str) (now : Nat)
    (h : HandlerId) (body : Str) : RunOut :=
  match env.handlerFault h with
  | none => { stores := st, events := [.terminal (.handler h body), .respond 200] }
  | some _ => generalCatchOut st frm stdFrm now

/-- Whether `selectedOption.data.stage === 'main_menu'` holds. -/
def dataIsMainMenu : ConvData → Bool
  | .userD _ stage => stage == some "main_menu".data
  | .acctD stage => stage == "main_menu".data
  | _ => false

/-- `selectedOption.data.stage` viewed as a medication-wizard stage
(`none` models a payload with no stage property, on which the source's
`stage.toString()` throws inside the try). -/
def dataMedStage : ConvData → Option MedStage
  | .medD stage => stage
  | .acctD stage => some (.str stage)
  | .userD _ (some stage) => some (.str stage)
  | _ => none

/-- The `markReminderSkipped` effect of the "2" arm of the
reminder-vs-check-in resolution (guarded by
`reminderData && reminderData.reminderId`). -/
def skipEvents : Option Reminder → List Event
  | some rd => if rd.reminderId.isEmpty then [] else
      [.reminderSkipped rd.reminderId skipReasonText]
  | none => []

/-- webhookRoutes PART 0, `reminder_vs_checkin` disambiguation
resolution (lines 58-143). -/
def part0rvc (env : Env) (st : Stores) (req : Req) (userSession : UserSession) : RunOut :=
  let incomingMsg := jsTrim req.Body
  let frm := req.From
  let stdFrm := standardizePhoneNumber frm
  if incomingMsg = "1".data then
    let originalResponse := userSession.originalResponse
    let st1 := deleteUserSession (deleteUserSession st frm) stdFrm
    let st2 := clearActiveCheckInSession st1 stdFrm
    let lower := jsToLower originalResponse
    let h := if lower = "yes".data ∨ lower = "taken".data then
      HandlerId.handleMedicationTaken else HandlerId.handleMedicationMissed
    match env.handlerFault h with
    | none => { stores := st2, events := [.terminal (.handler h originalResponse), .respond 200] }
    | some _ =>
      { stores := st2,
        events := [.sent frm medResponseErrText, .terminal (.reply .medicationErrorReply), .respond 200] }
  else if incomingMsg = "2".data then
    let originalResponse := userSession.originalResponse
    let st1 := deleteUserSession (deleteUserSession st frm) stdFrm
    let evSkip : List Event := skipEvents userSession.reminderData
    let checkInResult := env.checkInRespDisambig
    if checkInResult.success then
      { stores := st1,
        events := evSkip ++ [.terminal (.handler .processCheckInResponse originalResponse),
          .sent frm checkInResult.followUp, .respond 200] }
    else
      { stores := st1,
        events := evSkip ++ [.terminal (.handler .processCheckInResponse originalResponse),
          .respond 200] }
  else
    { stores := st,
      events := [.sent frm rvcRepromptText, .terminal (.reply .rvcReprompt), .respond 200] }

/-- webhookRoutes PART 0, general disambiguation resolution (lines
146-241): `parseInt(incomingMsg) - 1` indexes the stored options. -/
def part0general (env : Env) (st : Stores) (req : Req) (userSession : UserSession) : RunOut :=
  let incomingMsg := jsTrim req.Body
  let frm := req.From
  let stdFrm := standardizePhoneNumber frm
  let reprompt : RunOut :=
    { stores := st,
      events := [.sent frm (generalRepromptText userSession.options.length),
        .terminal (.reply (.generalReprompt userSession.options.length)), .respond 200] }
  match jsParseInt incomingMsg with
  | none => reprompt
  | some p =>
    let optionIndex : Int := p - 1
    if optionIndex < 0 ∨ (userSession.options.length : Int) ≤ optionIndex then reprompt
    else
      match userSession.options.get? optionIndex.toNat with
      | none => generalCatchOut st frm stdFrm req.now
      | some selectedOption =>
        let originalResponse := userSession.originalResponse
        let st1 := deleteUserSession (deleteUserSession st frm) stdFrm
        match selectedOption.type with
        | .medication_reminder =>
          let lower := jsToLower originalResponse
          let h := if lower = "yes".data ∨ lower = "taken".data then
            HandlerId.handleMedicationTaken else HandlerId.handleMedicationMissed
          generalTryDispatch env st1 frm stdFrm req.now h originalResponse
        | .check_in_response =>
          let r := env.checkInRespGeneralChoice
          if r.success then
            { stores := st1,
              events := [.terminal (.handler .processCheckInResponse originalResponse),
                .sent frm r.followUp, .respond 200] }
          else disambigFallbackOut st1 frm req.now
        | .symptom_assessment =>
          generalTryDispatch env st1 frm stdFrm req.now .continueSymptomAssessment originalResponse
        | .menu_navigation =>
          let h := if dataIsMainMenu selectedOption.data then
            HandlerId.handleMainMenuSelection else HandlerId.handleMedicationMenuSelection
          generalTryDispatch env st1 frm stdFrm req.now h originalResponse
        | .medication_management =>
          match dataMedStage selectedOption.data with
          | none => generalCatchOut st1 frm stdFrm req.now
          | some ms =>
            if ms = .num 1 ∨ ms = .num 2 ∨ leadsWith "add_".data ms.strForm then
              generalTryDispatch env st1 frm stdFrm req.now .continueAddMedication originalResponse
            else if leadsWith "update_".data ms.strForm then
              generalTryDispatch env st1 frm stdFrm req.now .continueMedicationUpdate originalResponse
            else if leadsWith "delete_".data ms.strForm then
              generalTryDispatch env st1 frm stdFrm req.now .continueMedicationDeletion originalResponse
            else disambigFallbackOut st1 frm req.now
        | _ => disambigFallbackOut st1 frm req.now

/-- webhookRoutes PART 0: intercept a pending disambiguation session
(looked up under both identity representations). -/
def part0 (env : Env) (st : Stores) (req : Req) : Option RunOut :=
  let frm := req.From
  let stdFrm := standardizePhoneNumber frm
  let userSession? : Option UserSession :=
    match st.userSessions frm with
    | some u => some u
    | none => st.userSessions stdFrm
  match userSession? with
  | some userSession =>
    if userSession.type = some "disambiguation".data then
      if userSession.stage = some "reminder_vs_checkin".data then
        some (part0rvc env st req userSession)
      else if userSession.stage = some "general".data then
        some (part0general env st req userSession)
      else none
    else none
  | none => none

/-- `activeCheckIn && activeCheckIn.conversationState !== 'completed'`. -/
def checkInActiveNotCompleted : Option CheckInSession → Bool
  | some s => s.conversationState != some "completed".data
  | none => false

/-- webhookRoutes PART 1 (conflict detection and resolution): on a
conflict that the message does not auto-resolve, persist a `general`
disambiguation session under both identity representations and ask. -/
def part1 (st : Stores) (req : Req) (conflictInfo : ConflictInfo) : Option RunOut :=
  let incomingMsg := jsTrim req.Body
  let frm := req.From
  let stdFrm := standardizePhoneNumber frm
  if conflictInfo.hasConflict then
    let disambiguationResult := handleDisambiguation incomingMsg conflictInfo
    if disambiguationResult.needsDisambiguation then
      let message := generateDisambiguationMessage disambiguationResult
      let sess : UserSession :=
        { type := some "disambiguation".data, stage := some "general".data,
          options := disambiguationResult.options, originalResponse := incomingMsg }
      let st1 := setUserSession st frm sess req.now
      let st2 := if stdFrm ≠ frm then setUserSession st1 stdFrm sess req.now else st1
      some { stores := st2,
             events := [.sent frm message, .terminal (.reply .generalAsk), .respond 200] }
    else none
  else none

/-- webhookRoutes PART 2 (medication-reminder fast path): on a vocabulary
word with a fresh unresponded reminder (re-queried independently), either
ask the reminder-vs-check-in question (only when PART 1 saw no conflict)
or clear the dialog sessions and dispatch the taken/missed handler. -/
def part2 (env : Env) (st : Stores) (req : Req) (activeCheckIn : Option CheckInSession)
    (conflictInfo : ConflictInfo) : Option RunOut :=
  let incomingMsg := jsTrim req.Body
  let incomingMsgLower := jsToLower incomingMsg
  let frm := req.From
  let stdFrm := standardizePhoneNumber frm
  if vocabResponse incomingMsgLower then
    match env.reminderAtFastPath with
    | some latestReminder =>
      if respondedTruthy latestReminder.responded then none
      else if checkInActiveNotCompleted activeCheckIn && !conflictInfo.hasConflict then
        let sess : UserSession :=
          { type := some "disambiguation".data, stage := some "reminder_vs_checkin".data,
            reminderData := some latestReminder, checkInData := activeCheckIn,
            originalResponse := incomingMsg }
        let st1 := setUserSession st frm sess req.now
        let st2 := if stdFrm ≠ frm then setUserSession st1 stdFrm sess req.now else st1
        some { stores := st2,
               events := [.sent frm (rvcAskText latestReminder.medicine),
                 .terminal (.reply .rvcAsk), .respond 200] }
      else
        let st1 := deleteUserSession (deleteUserSession st frm) stdFrm
        let h := if incomingMsgLower = "yes".data ∨ incomingMsgLower = "taken".data then
          HandlerId.handleMedicationTaken else HandlerId.handleMedicationMissed
        match env.handlerFault h with
        | none => some { stores := st1, events := [.terminal (.handler h req.Body), .respond 200] }
        | some _ =>
          some { stores := st1,
                 events := [.sent frm medResponseErrText,
                   .terminal (.reply .medicationErrorReply), .respond 200] }
    | none => none
  else none

/-- webhookRoutes PART 1 + PART 2 as one unit (PART 2 reads the
`conflictInfo` computed by PART 1 and the check-in session fetched just
before it). -/
def part12 (env : Env) (st : Stores) (req : Req) : Option RunOut :=
  let stdFrm := standardizePhoneNumber req.From
  let activeCheckIn := st.checkIns stdFrm
  let conflictInfo := detectConversationConflicts stdFrm st
    (msingle stdFrm activeCheckIn) env.reminderAtDetect
  match part1 st req conflictInfo with
  | some r => some r
  | none => part2 env st req activeCheckIn conflictInfo

/-- JavaScript truthiness of an optional string property. -/
def optStrTruthy : Option Str → Bool
  | some s => !s.isEmpty
  | none => false

/-- The tail of PART 3 (general dialog session continuations). -/
def part3user (env : Env) (st : Stores) (_req : Req) :
    Option UserSession → Option RunOut
  | some u =>
    if u.type = some "symptom".data then
      some (dispatchTo env st .continueSymptomAssessment _req.Body)
    else if u.type = some "follow_up".data then
      some (dispatchTo env st .handleFollowUpResponse _req.Body)
    else if u.stage = some "main_menu".data then
      some (dispatchTo env st .handleMainMenuSelection _req.Body)
    else if u.stage = some "medication_menu".data then
      some (dispatchTo env st .handleMedicationMenuSelection _req.Body)
    else if u.stage = some "medication_info_selection".data then
      some (dispatchTo env st .handleMedicationInfoSelection _req.Body)
    else none
  | none => none

/-- webhookRoutes PART 3: the active-session continuation cascade. -/
def part3 (env : Env) (st : Stores) (req : Req) : Option RunOut :=
  let frm := req.From
  let stdFrm := standardizePhoneNumber frm
  let userSession? : Option UserSession :=
    match st.userSessions frm with
    | some u => some u
    | none => st.userSessions stdFrm
  let medicationSession? : Option MedSession :=
    match st.medicationSessions frm with
    | some m => some m
    | none => st.medicationSessions stdFrm
  let acct? : Option AccountSession :=
    match st.accountCreationSessions frm with
    | some a => some a
    | none => st.accountCreationSessions stdFrm
  if acct?.isSome then some (dispatchTo env st .continueAccountCreation req.Body)
  else
    let medStageT : Option MedStage :=
      match medicationSession? with
      | some m =>
        match m.stage with
        | some ms => if ms.truthy then some ms else none
        | none => none
      | none => none
    match medStageT with
    | some ms =>
      if ms = .num 1 ∨ ms = .num 2 ∨ leadsWith "add_".data ms.strForm then
        some (dispatchTo env st .continueAddMedication req.Body)
      else if leadsWith "update_".data ms.strForm then
        some (dispatchTo env st .continueMedicationUpdate req.Body)
      else if leadsWith "delete_".data ms.strForm then
        some (dispatchTo env st .continueMedicationDeletion req.Body)
      else part3user env st req userSession?
    | none => part3user env st req userSession?


/-- PART 5's completion / continuation notes. -/
def followUpDoneText : Str :=
  "Thank you for using Sukoon Saarthi symptom tracking. Your symptom follow-up is now complete.".data

def followUpAgainText : Str :=
  "I'll check in with you again tomorrow. If your symptoms change significantly before then, please use the symptom assessment option from the main menu.".data

/-- webhookRoutes PART 4: check-in response probe, attempted only when no
user or medication session exists; a failed probe falls through. -/
def part4 (env : Env) (st : Stores) (req : Req) : Option RunOut :=
  let frm := req.From
  let stdFrm := standardizePhoneNumber frm
  let userSession? : Option UserSession :=
    match st.userSessions frm with
    | some u => some u
    | none => st.userSessions stdFrm
  let medicationSession? : Option MedSession :=
    match st.medicationSessions frm with
    | some m => some m
    | none => st.medicationSessions stdFrm
  if userSession?.isNone && medicationSession?.isNone then
    let checkInResult := env.checkInRespProbe
    if checkInResult.success then
      some { stores := st,
             events := [.terminal (.handler .processCheckInResponse (jsTrim req.Body)),
               .sent frm checkInResult.followUp, .respond 200] }
    else none
  else none

/-- webhookRoutes PART 5: direct numeric symptom-follow-up probe for
messages "1".."4" with no staged/typed session; failures fall through. -/
def part5 (env : Env) (st : Stores) (req : Req) : Option RunOut :=
  let incomingMsg := jsTrim req.Body
  let frm := req.From
  let stdFrm := standardizePhoneNumber frm
  let userSession? : Option UserSession :=
    match st.userSessions frm with
    | some u => some u
    | none => st.userSessions stdFrm
  let sessionFree : Bool :=
    match userSession? with
    | none => true
    | some u => !(optStrTruthy u.stage) && !(optStrTruthy u.type)
  if (incomingMsg = "1".data ∨ incomingMsg = "2".data ∨
      incomingMsg = "3".data ∨ incomingMsg = "4".data) ∧ sessionFree then
    match env.activeAssessments with
    | [] => none
    | _ :: _ =>
      let result := env.followUpResult
      if result.success then
        some { stores := st,
               events := [.terminal (.handler .processFollowUpResponse incomingMsg),
                 .sent frm result.recommendations,
                 .sent frm (if result.isCompleted then followUpDoneText else followUpAgainText),
                 .respond 200] }
      else none
  else none

/-- webhookRoutes PART 6: identity existence gate. -/
def part6 (env : Env) (st : Stores) (req : Req) : Option RunOut :=
  let incomingMsgLower := jsToLower (jsTrim req.Body)
  if env.userExists then none
  else if incomingMsgLower = "create an account".data ∨
          incomingMsgLower = "create account".data then
    some (dispatchTo env st .startAccountCreation req.Body)
  else
    some { stores := st,
           events := [.sent req.From createAccountText,
             .terminal (.reply .createAccountPrompt), .respond 200] }

/-- webhookRoutes PART 7: proxy commands, greeting, menu keywords. -/
def part7 (env : Env) (st : Stores) (req : Req) : Option RunOut :=
  let incomingMsg := jsTrim req.Body
  let incomingMsgLower := jsToLower incomingMsg
  let frm := req.From
  match parseProxyCommand incomingMsg with
  | some _ =>
    match env.proxyResult with
    | .error f => some { stores := st, events := [], fault := some f }
    | .ok r =>
      some { stores := st,
             events := [.terminal (.handler .handleProxyCommand incomingMsg),
               .sent frm r.message, .respond 200] }
  | none =>
    if incomingMsgLower = "hi".data ∨ incomingMsgLower = "hello".data then
      some (dispatchTo env st .showWelcomeMenu req.Body)
    else if incomingMsgLower = "menu".data ∨ incomingMsgLower = "main menu".data ∨
            incomingMsgLower = "back".data ∨ incomingMsgLower = "7".data then
      let menu := sendMainMenu st frm req.now
      some { stores := menu.1,
             events := menu.2 ++ [.terminal (.reply .mainMenuReturn), .respond 200] }
    else none

/-- The medication-info block of webhookRoutes PART 8 (the
`getUserMedications` + `processMedicationInfoRequest` awaits are not
try/catch-guarded, so their exceptions escape). -/
def part8info (env : Env) (st : Stores) (frm : Str) : Option RunOut :=
  match env.medInfoOutcome with
  | .error f => some { stores := st, events := [], fault := some f }
  | .ok (some info) =>
    some { stores := st,
           events := [.sent frm info, .terminal (.reply .medicationInfoReply), .respond 200] }
  | .ok none => none

/-- The caregiver-report block of webhookRoutes PART 8 (its body is
try/catch-guarded, so a failure behaves like "no report"). -/
def part8report (env : Env) (st : Stores) (frm : Str) : Option RunOut :=
  match env.reportOutcome with
  | some report =>
    some { stores := st,
           events := [.sent frm report, .terminal (.reply .dailyReportReply), .respond 200] }
  | none => none

/-- The keyword gate in front of the medication-info block. -/
def part8infoGate (env : Env) (st : Stores) (frm lower : Str) : Option RunOut :=
  if containsSub "medicine info".data lower || containsSub "medication info".data lower ||
     containsSub "drug info".data lower || containsSub "about my medicine".data lower ||
     containsSub "tell me about".data lower || leadsWith "what is".data lower then
    part8info env st frm
  else none

/-- webhookRoutes PART 8: feature keywords (symptom, medication CRUD,
history, medication info, caregiver report); `lower` is the trimmed,
lower-cased message. -/
def part8core (env : Env) (st : Stores) (frm body lower : Str) : Option RunOut :=
  if lower = "symptom".data then
    some (dispatchTo env st .startSymptomAssessment body)
  else if lower = "check symptom status".data ∨ lower = "symptom status".data then
    some (dispatchTo env st .showSymptomStatus body)
  else if lower = "add medicine".data then
    some (dispatchTo env st .startAddMedication body)
  else if lower = "update medicine".data then
    some (dispatchTo env st .startMedicationUpdate body)
  else if lower = "delete medicine".data ∨ lower = "remove medicine".data then
    some (dispatchTo env st .startMedicationDeletion body)
  else if lower = "show medication history last week".data then
    some (dispatchTo env st .showMedicationHistory body)
  else if lower = "show all medication history".data then
    some (dispatchTo env st .showMedicationHistory body)
  else
    match part8infoGate env st frm lower with
    | some r => some r
    | none =>
      if containsSub "daily report".data lower || containsSub "check-in report".data lower ||
         containsSub "activity report".data lower || containsSub "how is my parent".data lower ||
         containsSub "how is my mom".data lower || containsSub "how is my dad".data lower then
        part8report env st frm
      else none

def part8 (env : Env) (st : Stores) (req : Req) : Option RunOut :=
  part8core env st req.From req.Body (jsToLower (jsTrim req.Body))

/-- webhookRoutes PART 9: the open-domain AI fallback (getAIResponse
catches internally and always yields a string). -/
def part9 (env : Env) (st : Stores) (req : Req) : RunOut :=
  { stores := st,
    events := [.terminal (.handler .getAIResponse (jsTrim req.Body)),
      .sent req.From env.aiResponse, .respond 200] }

/-- The whole `router.post('/')` body: the stages in source order, first
applicable stage short-circuiting the rest (fall-through stages neither
send nor mutate, which the per-stage definitions make explicit). -/
def runBody (env : Env) (st : Stores) (req : Req) : RunOut :=
  match part0 env st req with
  | some r => r
  | none =>
  match part12 env st req with
  | some r => r
  | none =>
  match part3 env st req with
  | some r => r
  | none =>
  match part4 env st req with
  | some r => r
  | none =>
  match part5 env st req with
  | some r => r
  | none =>
  match part6 env st req with
  | some r => r
  | none =>
  match part7 env st req with
  | some r => r
  | none =>
  match part8 env st req with
  | some r => r
  | none => part9 env st req

/-- The generic apology of the route boundary's catch block. -/
def apologyText : Str :=
  "I'm sorry, there was an error processing your request. Please try again later.".data

/-- The transport-visible result of one invocation. -/
structure HttpOut where
  stores : Stores
  events : List Event
  status : Nat

/-- The full route handler including its try/catch boundary: a normal
completion answers 200; an escaped exception is answered with the fixed
apology and a 500. -/
def webhookHandler (env : Env) (st : Stores) (req : Req) : HttpOut :=
  let r := runBody env st req
  match r.fault with
  | none => { stores := r.stores, events := r.events, status := 200 }
  | some _ =>
    { stores := r.stores,
      events := r.events ++ [.sent req.From apologyText, .respond 500],
      status := 500 }

/-- Terminal-routing events (one per `return` path). -/
def isTerminalEv : Event → Bool
  | .terminal _ => true
  | _ => false

/-- HTTP-response events. -/
def isRespondEv : Event → Bool
  | .respond _ => true
  | _ => false

def terminalCount (evs : List Event) : Nat := (evs.filter isTerminalEv).length

def respondCount (evs : List Event) : Nat := (evs.filter isRespondEv).length

/-- The terminal routing decisions of a run, in order. -/
def terminalsOf (evs : List Event) : List RouteTarget :=
  evs.filterMap (fun e => match e with
    | .terminal t => some t
    | _ => none)

/-- A fault-free environment: no dialog handler throws and the two
call sites whose exceptions escape uncaught resolve normally. -/
def FaultFree (env : Env) : Prop :=
  (∀ h, env.handlerFault h = none) ∧
  (∃ v, env.medInfoOutcome = Except.ok v) ∧
  (∃ v, env.proxyResult = Except.ok v)

/-- A well-behaved run: no escaped exception, exactly one terminal
routing decision, exactly one HTTP response. -/
def GoodRun (r : RunOut) : Prop :=
  r.fault = none ∧ terminalCount r.events = 1 ∧ respondCount r.events = 1

/-- Whether an optional user session is a pending disambiguation. -/
def isDisambigSession : Option UserSession → Bool
  | some u => u.type == some "disambiguation".data
  | none => false

/-- The route the general-disambiguation resolver hands a validly chosen
option to (mirrors the dispatch arm of webhookRoutes PART 0 lines
167-228; used to state the amended round-trip property). -/
def chosenTarget (env : Env) (opt : ActiveConv) (orig : Str) : RouteTarget :=
  match opt.type with
  | .medication_reminder =>
    .handler (if jsToLower orig = "yes".data ∨ jsToLower orig = "taken".data then
      .handleMedicationTaken else .handleMedicationMissed) orig
  | .check_in_response =>
    if env.checkInRespGeneralChoice.success then .handler .processCheckInResponse orig
    else .reply .disambigFallback
  | .symptom_assessment => .handler .continueSymptomAssessment orig
  | .menu_navigation =>
    .handler (if dataIsMainMenu opt.data then .handleMainMenuSelection
      else .handleMedicationMenuSelection) orig
  | .medication_management =>
    match dataMedStage opt.data with
    | none => .reply .disambigErrorFallback
    | some ms =>
      if ms = .num 1 ∨ ms = .num 2 ∨ leadsWith "add_".data ms.strForm then
        .handler .continueAddMedication orig
      else if leadsWith "update_".data ms.strForm then
        .handler .continueMedicationUpdate orig
      else if leadsWith "delete_".data ms.strForm then
        .handler .continueMedicationDeletion orig
      else .reply .disambigFallback
  | _ => .reply .disambigFallback

/-- Fixture: the empty store state. -/
def storesEmpty : Stores :=
  { accountCreationSessions := memp
    userSessions := memp
    medicationSessions := memp
    checkIns := memp }

/-- Fixture: a quiet environment with no pending external state and no
faults. -/
def envBase : Env :=
  { reminderAtDetect := none
    reminderAtFastPath := none
    checkInRespDisambig := { success := false }
    checkInRespGeneralChoice := { success := false }
    checkInRespProbe := { success := false }
    activeAssessments := []
    followUpResult := { success := false }
    userExists := true
    medInfoOutcome := Except.ok none
    reportOutcome := none
    aiResponse := "ok".data
    proxyResult := Except.ok { success := true, message := "done".data }
    handlerFault := fun _ => none }

/-- Fixture: a fresh unresponded Aspirin reminder. -/
def remAspirin : Reminder :=
  { reminderId := "r1".data, medicine := "Aspirin".data, responded := some false, createdAt := 0 }

/-- Fixture: environment in which both reminder lookups see
`remAspirin`. -/
def envReminder : Env :=
  { envBase with reminderAtDetect := some remAspirin, reminderAtFastPath := some remAspirin }

/-- Fixture: store state with an active (initial) check-in for "u1". -/
def storesCheckIn : Stores :=
  { storesEmpty with
    checkIns := msingle "u1".data (some { conversationState := some "initial".data }) }

/-- Fixture: the inbound message "yes" from "u1". -/
def reqYes : Req := { From := "u1".data, Body := "yes".data, now := 5 }

/-- Fixture: a pending reminder-vs-check-in disambiguation session whose
original text was "yes". -/
def rvcSession : UserSession :=
  { type := some "disambiguation".data, stage := some "reminder_vs_checkin".data,
    reminderData := some remAspirin,
    checkInData := some { conversationState := some "initial".data },
    originalResponse := "yes".data, timestamp := some 1 }

/-- Fixture: stores holding `rvcSession` for "u1" plus the active
check-in it refers to. -/
def storesRvc : Stores :=
  { storesCheckIn with userSessions := mset memp "u1".data rvcSession }

/-- Fixture: a symptom-assessment option as `detectConversationConflicts`
would record it. -/
def optSymptom : ActiveConv :=
  { type := .symptom_assessment, priority := CONVERSATION_PRIORITIES .symptom_assessment,
    data := .userD (some "symptom".data) (some "severity".data),
    description := "Symptom assessment (stage: severity)".data }

/-- Fixture: a menu-navigation option. -/
def optMenu : ActiveConv :=
  { type := .menu_navigation, priority := CONVERSATION_PRIORITIES .menu_navigation,
    data := .userD none (some "main_menu".data),
    description := "Menu navigation (main_menu)".data }

/-- Fixture: a pending general disambiguation session with one stored
option and original text "2". -/
def generalSession : UserSession :=
  { type := some "disambiguation".data, stage := some "general".data,
    options := [optSymptom], originalResponse := "2".data, timestamp := some 1 }

/-- Fixture: stores holding `generalSession` for "u1". -/
def storesGeneral : Stores :=
  { storesEmpty with userSessions := mset memp "u1".data generalSession }

/-- Fixture: a conflict-detector result carrying both a menu-navigation
and a symptom-assessment record (buildable by a caller of
`handleDisambiguation`, which takes the record as an argument). -/
def ciMenuSymptom : ConflictInfo :=
  { hasConflict := true, activeConversations := [optSymptom, optMenu],
    highestPriority := some optSymptom }

/-- Fixture: request carrying "1abc" (parseInt-lenient reply). -/
def reqOneAbc : Req := { From := "u1".data, Body := "1abc".data, now := 9 }

/-- Fixture: request carrying "1". -/
def reqOne : Req := { From := "u1".data, Body := "1".data, now := 9 }

/-- Fixture: request carrying "2". -/
def reqTwo : Req := { From := "u1".data, Body := "2".data, now := 9 }

/-- Fixture: an environment whose account-creation continuation handler
throws. -/
def envAcctFault : Env :=
  { envBase with
    handlerFault := fun h => if h = .continueAccountCreation then some (.err "boom".data) else none }

/-- Fixture: stores with an account-creation session for "u1". -/
def storesAcct : Stores :=
  { storesEmpty with
    accountCreationSessions := mset memp "u1".data { stage := "name".data, timestamp := some 1 } }

/-- Fixture: the non-idempotence input for the identity normalizer. -/
def c7FailInput : Str := "whatsawhatsapp:pp:".data

/-- Fixture: a general dialog session parked on the medication-info menu
marker. -/
def medInfoStageSession : UserSession :=
  { stage := some "medication_info_selection".data }

/-- Fixture: a reminder-item list for the lookup-window claim. -/
def itemFresh : ReminderItem :=
  { reminderId := "r9".data, userPhone := "u1".data, medicine := "Ibuprofen".data,
    createdAt := 1000000, responded := none }

/-- Fixture: the inbound greeting "hello" from "u1". -/
def reqHello : Req := { From := "u1".data, Body := "hello".data, now := 3 }

/-- Fixture: a general dialog session parked on the main menu, with a
recorded timestamp. -/
def ttlUserSession : UserSession := { stage := some "main_menu".data, timestamp := some 1000 }

/-- Fixture: an account-creation session with a recorded timestamp. -/
def ttlAcctSession : AccountSession := { stage := "name".data, timestamp := some 1000 }

/-- Fixture: a medication-wizard session with a recorded timestamp. -/
def ttlMedSession : MedSession := { stage := some (.str "update_dosage".data), timestamp := some 1000 }

/-- Fixture: stores carrying one session of each kind, all written at
time 1000. -/
def storesTtl : Stores :=
  { accountCreationSessions := mset memp "u1".data ttlAcctSession
    userSessions := mset memp "u1".data ttlUserSession
    medicationSessions := mset memp "u1".data ttlMedSession
    checkIns := memp }

/-- Fixture: stores with an account-creation session and a menu session
for "u1" (two concurrently active kinds). -/
def storesConflict : Stores :=
  { storesEmpty with
    accountCreationSessions := mset memp "u1".data { stage := "name".data, timestamp := some 1 }
    userSessions := mset memp "u1".data { stage := some "main_menu".data, timestamp := some 1 } }

/-
  ======================  THEOREMS  ======================
-/

/-- Helper: the head of a list whose filter matched satisfies the
filter. -/
theorem filter_head?_prop {α : Type} {p : α → Bool} {l : List α} {r : α}
    (h : (l.filter p).head? = some r) : p r = true := by
  cases hl : l.filter p with
  | nil => rw [hl] at h; cases h
  | cons a t =>
    rw [hl] at h
    have ha : a = r := by simpa using h
    subst ha
    have : a ∈ l.filter p := by rw [hl]; exact List.mem_cons_self a t
    exact (List.mem_filter.mp this).2

/-- C7 (code bug witness): `standardizePhoneNumber` is not idempotent.
On `"whatsawhatsapp:pp:"` the first application removes the embedded
first occurrence of `"whatsapp:"` and thereby CREATES the string
`"whatsapp:"`, which a second application erases, contradicting the
documented "strip the prefix if present" semantics and the claimed
idempotence. -/
theorem standardizePhoneNumber_not_idempotent :
    standardizePhoneNumber c7FailInput = "whatsapp:".data ∧
    standardizePhoneNumber (standardizePhoneNumber c7FailInput) = [] ∧
    standardizePhoneNumber (standardizePhoneNumber c7FailInput) ≠
      standardizePhoneNumber c7FailInput := by
  refine ⟨by decide, by decide, by decide⟩

/-- C10: the reachable `ReminderModel.getLatestReminder` is the
60-minute binding (in a JavaScript object literal the later duplicate
key wins); it yields a reminder only when `createdAt` is within the last
60 minutes and `responded` is false or absent, and yields `none` on a
lookup error. -/
theorem getLatestReminder_effective_window :
    (ReminderModel_getLatestReminder = getLatestReminder_v60) ∧
    (∀ db now r, ReminderModel_getLatestReminder db now = some r →
      now - 60 * 60 * 1000 < r.createdAt ∧ r.responded ≠ some true) ∧
    (∀ f now, ReminderModel_getLatestReminder (Except.error f) now = none) := by
  refine ⟨rfl, ?_, fun f now => rfl⟩
  intro db now r h
  cases db with
  | error f => cases h
  | ok items =>
    have hp : sixtyFilter now r = true := by
      have h' : ((items.take 1).filter (sixtyFilter now)).head? = some r := h
      exact filter_head?_prop h'
    simp only [sixtyFilter, Bool.and_eq_true, Bool.or_eq_true, beq_iff_eq,
      decide_eq_true_eq] at hp
    obtain ⟨h1, h2⟩ := hp
    refine ⟨h1, ?_⟩
    rcases h2 with h2 | h2 <;> simp [h2]

/-- Witness for C10 at a concrete database slice. -/
theorem getLatestReminder_effective_window_witness :
    ReminderModel_getLatestReminder (Except.ok [itemFresh]) 1500000 = some itemFresh ∧
    (1500000 - 60 * 60 * 1000 < itemFresh.createdAt ∧ itemFresh.responded ≠ some true) := by
  refine ⟨by decide, ?_⟩
  exact getLatestReminder_effective_window.2.1 (Except.ok [itemFresh]) 1500000 itemFresh (by decide)

/-- C5 counterexample: the claim "a general dialog session with no type
is classified menu_navigation exactly when its stage is one of the THREE
menu markers" is false: the detector checks only `main_menu` and
`medication_menu`, so a session parked on `medication_info_selection`
refutes the right-to-left direction. -/
theorem userConversationType_three_marker_claim_false :
    ¬ (∀ u : UserSession, u.type = none →
        (userConversationType u = ConvType.menu_navigation ↔
          (u.stage = some "main_menu".data ∨ u.stage = some "medication_menu".data ∨
           u.stage = some "medication_info_selection".data))) := by
  intro hclaim
  have h := (hclaim medInfoStageSession rfl).2 (Or.inr (Or.inr rfl))
  exact absurd h (by decide)

/-- C5 (amended): with no `type`, the detector classifies a general
dialog session as menu_navigation exactly when its stage is `main_menu`
or `medication_menu`; a session on `medication_info_selection` is
classified general_query; `type` symptom or follow_up gives
symptom_assessment. -/
theorem userConversationType_menu_markers (u : UserSession) :
    (u.type = none →
      (userConversationType u = ConvType.menu_navigation ↔
        (u.stage = some "main_menu".data ∨ u.stage = some "medication_menu".data))) ∧
    (u.type = none → u.stage = some "medication_info_selection".data →
      userConversationType u = ConvType.general_query) ∧
    ((u.type = some "symptom".data ∨ u.type = some "follow_up".data) →
      userConversationType u = ConvType.symptom_assessment) := by
  refine ⟨?_, ?_, ?_⟩
  · intro ht
    unfold userConversationType
    rw [ht]
    simp only [reduceCtorEq, if_false]
    split
    · rename_i hcond
      simp [hcond]
    · rename_i hcond
      simp [hcond]
  · intro ht hs
    unfold userConversationType
    rw [ht, hs]
    simp
  · intro ht
    unfold userConversationType
    rcases ht with ht | ht <;> rw [ht] <;> simp

/-- Witness for the amended C5 at the concrete session fixtures. -/
theorem userConversationType_menu_markers_witness :
    userConversationType medInfoStageSession = ConvType.general_query ∧
    userConversationType { stage := some "main_menu".data } = ConvType.menu_navigation :=
  ⟨(userConversationType_menu_markers medInfoStageSession).2.1 rfl rfl,
   ((userConversationType_menu_markers { stage := some "main_menu".data }).1 rfl).2 (Or.inl rfl)⟩

/-- C8: after `cleanupExpiredSessions` runs at time `now`, a session of
any of the three kinds whose recorded timestamp `t` satisfies
`now - t > 30min` is absent, one within the window is present and
unchanged; and because every `set` operation restamps the timestamp with
the current time, a session (re)written at time `now` survives any sweep
at a time `now2` with `now2 - now ≤ 30min`. -/
theorem cleanupExpiredSessions_ttl (st : Stores) (now : Nat) (k : Str) :
    (∀ s t, st.userSessions k = some s → s.timestamp = some t →
      ((EXPIRY_TIME < now - t → (cleanupExpiredSessions st now).userSessions k = none) ∧
       (now - t ≤ EXPIRY_TIME → (cleanupExpiredSessions st now).userSessions k = some s))) ∧
    (∀ s t, st.accountCreationSessions k = some s → s.timestamp = some t →
      ((EXPIRY_TIME < now - t → (cleanupExpiredSessions st now).accountCreationSessions k = none) ∧
       (now - t ≤ EXPIRY_TIME → (cleanupExpiredSessions st now).accountCreationSessions k = some s))) ∧
    (∀ s t, st.medicationSessions k = some s → s.timestamp = some t →
      ((EXPIRY_TIME < now - t → (cleanupExpiredSessions st now).medicationSessions k = none) ∧
       (now - t ≤ EXPIRY_TIME → (cleanupExpiredSessions st now).medicationSessions k = some s))) ∧
    (∀ v now2, now2 - now ≤ EXPIRY_TIME →
      (cleanupExpiredSessions (setUserSession st k v now) now2).userSessions k =
        some { v with timestamp := some now }) ∧
    (∀ v now2, now2 - now ≤ EXPIRY_TIME →
      (cleanupExpiredSessions (setAccountCreationSession st k v now) now2).accountCreationSessions k =
        some { v with timestamp := some now }) ∧
    (∀ v now2, now2 - now ≤ EXPIRY_TIME →
      (cleanupExpiredSessions (setMedicationSession st k v now) now2).medicationSessions k =
        some { v with timestamp := some now }) := by
  refine ⟨?_, ?_, ?_, ?_, ?_, ?_⟩
  · intro s t hs ht
    constructor <;> intro hcmp <;>
      simp [cleanupExpiredSessions, sweepEntry, hs, ht, hcmp, Nat.not_lt.mpr, if_pos, if_neg]
  · intro s t hs ht
    constructor <;> intro hcmp <;>
      simp [cleanupExpiredSessions, sweepEntry, hs, ht, hcmp, Nat.not_lt.mpr, if_pos, if_neg]
  · intro s t hs ht
    constructor <;> intro hcmp <;>
      simp [cleanupExpiredSessions, sweepEntry, hs, ht, hcmp, Nat.not_lt.mpr, if_pos, if_neg]
  · intro v now2 hcmp
    simp [cleanupExpiredSessions, sweepEntry, setUserSession, mset]
    omega
  · intro v now2 hcmp
    simp [cleanupExpiredSessions, sweepEntry, setAccountCreationSession, mset]
    omega
  · intro v now2 hcmp
    simp [cleanupExpiredSessions, sweepEntry, setMedicationSession, mset]
    omega

/-- Witness for C8: the 30-minute boundary on the concrete fixture
stores (sessions written at time 1000 vanish at 1000 + 30min + 1 and
survive at time 2000; a re-set at 2000 survives a sweep at 2500). -/
theorem cleanupExpiredSessions_ttl_witness :
    (cleanupExpiredSessions storesTtl (EXPIRY_TIME + 1001)).userSessions "u1".data = none ∧
    (cleanupExpiredSessions storesTtl 2000).userSessions "u1".data = some ttlUserSession ∧
    (cleanupExpiredSessions (setUserSession storesTtl "u1".data ttlUserSession 2000) 2500).userSessions "u1".data =
      some { ttlUserSession with timestamp := some 2000 } := by
  have h1 := cleanupExpiredSessions_ttl storesTtl (EXPIRY_TIME + 1001) "u1".data
  have h2 := cleanupExpiredSessions_ttl storesTtl 2000 "u1".data
  refine ⟨(h1.1 ttlUserSession 1000 (by decide) (by decide)).1 (by decide),
    (h2.1 ttlUserSession 1000 (by decide) (by decide)).2 (by decide),
    h2.2.2.2.1 ttlUserSession 2500 (by decide)⟩

/-- Helper: an all-digits string is never one of the medication-response
vocabulary words. -/
theorem digits_not_vocab {s : Str} (h : isAllDigits s = true) : vocabResponse s = false := by
  by_contra hv
  rw [Bool.not_eq_false] at hv
  simp only [vocabResponse, Bool.or_eq_true, decide_eq_true_eq] at hv
  rcases hv with ((h1 | h1) | h1) | h1 <;> (subst h1; exact absurd h (by decide))

/-- C6: on a conflicted result, a purely numeric reply with both a
menu_navigation and a symptom_assessment record active yields the
`menu_vs_symptom` disambiguation restricted to exactly the records of
those two kinds; any other still-conflicted, non-auto-resolved reply
yields the `general` disambiguation over all active records. -/
theorem handleDisambiguation_cases (resp : Str) (ci : ConflictInfo)
    (hc : ci.hasConflict = true) :
    ((isAllDigits (jsTrim (jsToLower resp)) = true →
      ci.activeConversations.any (fun c => c.type == ConvType.menu_navigation) = true →
      ci.activeConversations.any (fun c => c.type == ConvType.symptom_assessment) = true →
        (handleDisambiguation resp ci =
          { needsDisambiguation := true, action := "ask".data,
            conflictType := some "menu_vs_symptom".data,
            options := ci.activeConversations.filter (fun c =>
              c.type == ConvType.menu_navigation || c.type == ConvType.symptom_assessment) } ∧
         ∀ c, c ∈ (handleDisambiguation resp ci).options ↔
           (c ∈ ci.activeConversations ∧
             (c.type = ConvType.menu_navigation ∨ c.type = ConvType.symptom_assessment))))) ∧
    (¬ (vocabResponse (jsTrim (jsToLower resp)) = true ∧
        (ci.activeConversations.find? (fun c => c.type == ConvType.medication_reminder)).isSome = true) →
     ¬ (isAllDigits (jsTrim (jsToLower resp)) = true ∧
        ci.activeConversations.any (fun c => c.type == ConvType.menu_navigation) = true ∧
        ci.activeConversations.any (fun c => c.type == ConvType.symptom_assessment) = true) →
        handleDisambiguation resp ci =
          { needsDisambiguation := true, action := "ask".data,
            conflictType := some "general".data,
            options := ci.activeConversations }) := by
  constructor
  · intro hd hmenu hsym
    have hnv : vocabResponse (jsTrim (jsToLower resp)) = false := digits_not_vocab hd
    have heq : handleDisambiguation resp ci =
        { needsDisambiguation := true, action := "ask".data,
          conflictType := some "menu_vs_symptom".data,
          options := ci.activeConversations.filter (fun c =>
            c.type == ConvType.menu_navigation || c.type == ConvType.symptom_assessment) } := by
      unfold handleDisambiguation
      rw [hc]
      simp only [Bool.true_eq_false, if_false, hnv, Bool.false_eq_true, hd, hmenu, hsym,
        Bool.and_self, if_true, Bool.and_eq_true, and_self]
    refine ⟨heq, ?_⟩
    intro c
    rw [heq]
    simp [List.mem_filter]
  · intro hnoauto hnonum
    unfold handleDisambiguation
    rw [hc]
    simp only [Bool.true_eq_false, if_false]
    have hcase2 :
        (if isAllDigits (jsTrim (jsToLower resp)) &&
            ci.activeConversations.any (fun conv => conv.type == ConvType.menu_navigation) &&
            ci.activeConversations.any (fun conv => conv.type == ConvType.symptom_assessment) then
          ({ needsDisambiguation := true, action := "ask".data,
             conflictType := some "menu_vs_symptom".data,
             options := ci.activeConversations.filter (fun conv =>
               conv.type == ConvType.menu_navigation ||
               conv.type == ConvType.symptom_assessment) } : DisambiguationResult)
        else
          { needsDisambiguation := true, action := "ask".data,
            conflictType := some "general".data,
            options := ci.activeConversations }) =
        { needsDisambiguation := true, action := "ask".data,
          conflictType := some "general".data,
          options := ci.activeConversations } := by
      rw [if_neg]
      intro hall
      simp only [Bool.and_eq_true] at hall
      exact hnonum ⟨hall.1.1, hall.1.2, hall.2⟩
    cases hv : vocabResponse (jsTrim (jsToLower resp)) with
    | false => simp only [hv, Bool.false_eq_true, if_false]; exact hcase2
    | true =>
      have hfind : ci.activeConversations.find? (fun c => c.type == ConvType.medication_reminder) = none := by
        rcases hopt : ci.activeConversations.find? (fun c => c.type == ConvType.medication_reminder) with _ | m
        · exact hopt
        · exact absurd ⟨hv, by rw [hopt]; rfl⟩ hnoauto
      simp only [hv, if_true, hfind]
      exact hcase2

/-- Witness for C6: the numeric reply "2" against a conflict result
carrying one symptom-assessment and one menu-navigation record produces
the two-option menu_vs_symptom disambiguation. -/
theorem handleDisambiguation_cases_witness :
    handleDisambiguation "2".data ciMenuSymptom =
      { needsDisambiguation := true, action := "ask".data,
        conflictType := some "menu_vs_symptom".data,
        options := [optSymptom, optMenu] } ∧
    (optMenu ∈ (handleDisambiguation "2".data ciMenuSymptom).options ↔
      (optMenu ∈ ciMenuSymptom.activeConversations ∧
        (optMenu.type = ConvType.menu_navigation ∨ optMenu.type = ConvType.symptom_assessment))) := by
  have h := (handleDisambiguation_cases "2".data ciMenuSymptom rfl).1
    (by decide) (by decide) (by decide)
  exact ⟨h.1.trans (by decide), h.2 optMenu⟩

/-- Helper: `head? = some a` gives membership. -/
theorem mem_of_head?_eq {α : Type} {l : List α} {a : α} (h : l.head? = some a) : a ∈ l := by
  cases l with
  | nil => cases h
  | cons x t =>
    have hx : x = a := by simpa using h
    rw [← hx]
    exact List.mem_cons_self x t

/-- Helper: `getLast? = some a` gives membership. -/
theorem mem_of_getLast?_eq {α : Type} : ∀ {l : List α} {a : α}, l.getLast? = some a → a ∈ l := by
  intro l
  induction l with
  | nil => intro a h; cases h
  | cons x t ih =>
    intro a h
    cases t with
    | nil =>
      have hx : x = a := by simpa using h
      rw [← hx]
      exact List.mem_cons_self x []
    | cons y t2 =>
      rw [List.getLast?_cons_cons] at h
      exact List.mem_cons_of_mem x (ih h)

/-- Helper: in a list sorted by descending priority, every member is
bounded by the head. -/
theorem sorted_head_ge {l : List ActiveConv} (hs : List.Sorted convGE l) {c : ActiveConv}
    (hc : c ∈ l) : ∃ h0, l.head? = some h0 ∧ c.priority ≤ h0.priority := by
  cases l with
  | nil => cases hc
  | cons a t =>
    refine ⟨a, rfl, ?_⟩
    rcases List.mem_cons.mp hc with h | h
    · exact h ▸ le_rfl
    · exact List.rel_of_sorted_cons hs c h

/-- Helper: in a list sorted by descending priority, every member bounds
the last element. -/
theorem sorted_getLast_le : ∀ {l : List ActiveConv}, List.Sorted convGE l →
    ∀ c ∈ l, ∃ h0, l.getLast? = some h0 ∧ h0.priority ≤ c.priority := by
  intro l
  induction l with
  | nil => intro _ c hc; cases hc
  | cons a t ih =>
    intro hs c hc
    cases t with
    | nil =>
      have : c = a := by simpa using hc
      exact ⟨a, rfl, this ▸ le_rfl⟩
    | cons b t2 =>
      have hs' : List.Sorted convGE (b :: t2) := hs.of_cons
      rcases List.mem_cons.mp hc with h | h
      · subst h
        obtain ⟨h0, hl, hle⟩ := ih hs' b (List.mem_cons_self b t2)
        refine ⟨h0, ?_, ?_⟩
        · rw [List.getLast?_cons_cons]; exact hl
        · have hba : convGE c b := List.rel_of_sorted_cons hs b (List.mem_cons_self b t2)
          exact le_trans hle hba
      · obtain ⟨h0, hl, hle⟩ := ih hs' c h
        exact ⟨h0, by rw [List.getLast?_cons_cons]; exact hl, hle⟩

/-- Helper: every record pushed by `detectConversationConflicts` carries
`priority = CONVERSATION_PRIORITIES type`. -/
theorem raw_priority_eq (a : Option AccountSession) (u : Option UserSession)
    (m : Option MedSession) (ci : Option CheckInSession) (r : Option Reminder) :
    ∀ c ∈ rawConversations a u m ci r, c.priority = CONVERSATION_PRIORITIES c.type := by
  intro c hc
  unfold rawConversations at hc
  simp only [List.mem_append] at hc
  rcases hc with ((((hc | hc) | hc) | hc) | hc)
  · cases a with
    | none => cases hc
    | some a0 => rw [show c = _ from by simpa using hc]
  · cases u with
    | none => cases hc
    | some u0 => rw [show c = _ from by simpa using hc]
  · cases m with
    | none => cases hc
    | some m0 => rw [show c = _ from by simpa using hc]
  · cases ci with
    | none => cases hc
    | some c0 => rw [show c = _ from by simpa using hc]
  · cases r with
    | none => cases hc
    | some r0 =>
      by_cases hr : respondedTruthy r0.responded
      · simp [hr] at hc
      · simp only [hr, Bool.false_eq_true, if_false, List.mem_singleton] at hc
        rw [hc]

/-- Helper: only medication_reminder has priority 100, only
general_query has priority 10, and all priorities lie in [10, 100]. -/
theorem priority_facts (t : ConvType) :
    10 ≤ CONVERSATION_PRIORITIES t ∧ CONVERSATION_PRIORITIES t ≤ 100 ∧
    (CONVERSATION_PRIORITIES t = 100 → t = ConvType.medication_reminder) ∧
    (CONVERSATION_PRIORITIES t = 10 → t = ConvType.general_query) := by
  cases t <;> simp [CONVERSATION_PRIORITIES]

/-- C2: `detectConversationConflicts` returns the active-conversation
records sorted by priority descending under the fixed priority table; a
medication_reminder record, when present, is ranked first and a
general_query record last, independently of the (fixed) source query
order; and `hasConflict` holds exactly when two or more records were
produced. -/
theorem detectConversationConflicts_priority_order (userPhone : Str) (st : Stores)
    (acis : SMap CheckInSession) (latestReminder : Option Reminder) :
    (CONVERSATION_PRIORITIES .medication_reminder = 100 ∧
     CONVERSATION_PRIORITIES .symptom_emergency = 90 ∧
     CONVERSATION_PRIORITIES .check_in_response = 80 ∧
     CONVERSATION_PRIORITIES .symptom_assessment = 70 ∧
     CONVERSATION_PRIORITIES .medication_management = 60 ∧
     CONVERSATION_PRIORITIES .account_creation = 50 ∧
     CONVERSATION_PRIORITIES .menu_navigation = 40 ∧
     CONVERSATION_PRIORITIES .general_query = 10) ∧
    List.Sorted convGE (detectConversationConflicts userPhone st acis latestReminder).activeConversations ∧
    (∀ c ∈ (detectConversationConflicts userPhone st acis latestReminder).activeConversations,
      c.priority = CONVERSATION_PRIORITIES c.type) ∧
    ((∃ c ∈ (detectConversationConflicts userPhone st acis latestReminder).activeConversations,
        c.type = ConvType.medication_reminder) →
      ∃ h0, (detectConversationConflicts userPhone st acis latestReminder).activeConversations.head? = some h0 ∧
        h0.type = ConvType.medication_reminder) ∧
    ((∃ c ∈ (detectConversationConflicts userPhone st acis latestReminder).activeConversations,
        c.type = ConvType.general_query) →
      ∃ h0, (detectConversationConflicts userPhone st acis latestReminder).activeConversations.getLast? = some h0 ∧
        h0.type = ConvType.general_query) ∧
    ((detectConversationConflicts userPhone st acis latestReminder).hasConflict = true ↔
      2 ≤ (detectConversationConflicts userPhone st acis latestReminder).activeConversations.length) := by
  set std := replaceFirst whatsappPre userPhone with hstd
  have hconvs : (detectConversationConflicts userPhone st acis latestReminder).activeConversations =
      List.insertionSort convGE (rawConversations (st.accountCreationSessions std)
        (st.userSessions std) (st.medicationSessions std) (acis std) latestReminder) := rfl
  have hsorted : List.Sorted convGE
      (detectConversationConflicts userPhone st acis latestReminder).activeConversations := by
    rw [hconvs]; exact List.sorted_insertionSort convGE _
  have hmem : ∀ c, c ∈ (detectConversationConflicts userPhone st acis latestReminder).activeConversations ↔
      c ∈ rawConversations (st.accountCreationSessions std) (st.userSessions std)
        (st.medicationSessions std) (acis std) latestReminder := by
    intro c
    rw [hconvs]
    exact (List.perm_insertionSort convGE _).mem_iff
  have hpri : ∀ c ∈ (detectConversationConflicts userPhone st acis latestReminder).activeConversations,
      c.priority = CONVERSATION_PRIORITIES c.type := by
    intro c hcm
    exact raw_priority_eq _ _ _ _ _ c ((hmem c).mp hcm)
  refine ⟨by simp [CONVERSATION_PRIORITIES], hsorted, hpri, ?_, ?_, ?_⟩
  · rintro ⟨c, hcm, hct⟩
    obtain ⟨h0, hh, hle⟩ := sorted_head_ge hsorted hcm
    have hcp : c.priority = 100 := by rw [hpri c hcm, hct]; rfl
    have h0m : h0 ∈ (detectConversationConflicts userPhone st acis latestReminder).activeConversations :=
      mem_of_head?_eq hh
    have h0p := hpri h0 h0m
    have hle100 : CONVERSATION_PRIORITIES h0.type ≤ 100 := (priority_facts h0.type).2.1
    have : CONVERSATION_PRIORITIES h0.type = 100 := by omega
    exact ⟨h0, hh, (priority_facts h0.type).2.2.1 this⟩
  · rintro ⟨c, hcm, hct⟩
    obtain ⟨h0, hh, hle⟩ := sorted_getLast_le hsorted c hcm
    have hcp : c.priority = 10 := by rw [hpri c hcm, hct]; rfl
    have h0m : h0 ∈ (detectConversationConflicts userPhone st acis latestReminder).activeConversations :=
      mem_of_getLast?_eq hh
    have h0p := hpri h0 h0m
    have hge10 : 10 ≤ CONVERSATION_PRIORITIES h0.type := (priority_facts h0.type).1
    have : CONVERSATION_PRIORITIES h0.type = 10 := by omega
    exact ⟨h0, hh, (priority_facts h0.type).2.2.2 this⟩
  · have : (detectConversationConflicts userPhone st acis latestReminder).hasConflict =
        decide (1 < (detectConversationConflicts userPhone st acis latestReminder).activeConversations.length) := by
      rfl
    rw [this]
    simp only [decide_eq_true_eq]
    omega

/-- Witness for C2 at concrete inputs: account-creation + menu sessions
plus a fresh unresponded reminder give a conflict whose first-ranked
record is the medication reminder. -/
theorem detectConversationConflicts_priority_order_witness :
    (detectConversationConflicts "u1".data storesConflict memp (some remAspirin)).hasConflict = true ∧
    (∃ h0, (detectConversationConflicts "u1".data storesConflict memp
        (some remAspirin)).activeConversations.head? = some h0 ∧
      h0.type = ConvType.medication_reminder) := by
  have h := detectConversationConflicts_priority_order "u1".data storesConflict memp (some remAspirin)
  exact ⟨(h.2.2.2.2.2).mpr (by decide), h.2.2.2.1 (by decide)⟩

/-- Helper: event counts distribute over concatenation. -/
theorem terminalCount_append (a b : List Event) :
    terminalCount (a ++ b) = terminalCount a + terminalCount b := by
  simp [terminalCount, List.filter_append]

theorem respondCount_append (a b : List Event) :
    respondCount (a ++ b) = respondCount a + respondCount b := by
  simp [respondCount, List.filter_append]

/-- Helper: the reminder-skip bookkeeping contributes neither a terminal
routing event nor a response. -/
theorem skipEvents_counts (rd : Option Reminder) :
    terminalCount (skipEvents rd) = 0 ∧ respondCount (skipEvents rd) = 0 := by
  unfold skipEvents
  cases rd with
  | none => simp [terminalCount, respondCount]
  | some r =>
    split <;> simp [terminalCount, respondCount, isTerminalEv, isRespondEv]

/-- Helper: the reminder-vs-check-in resolution stage is well-behaved
when no handler throws (its one dispatch site is try/catch-guarded in the
source, so even a fault stays well-behaved, but the fault-free form
suffices for the single-dispatch claim). -/
theorem part0rvc_good (env : Env) (st : Stores) (req : Req) (u : UserSession)
    (hff : ∀ h, env.handlerFault h = none) : GoodRun (part0rvc env st req u) := by
  unfold part0rvc
  dsimp only
  split
  · rw [hff]
    simp [GoodRun, terminalCount, respondCount, isTerminalEv, isRespondEv]
  · split
    · split <;> refine ⟨rfl, ?_, ?_⟩
      · rw [terminalCount_append, (skipEvents_counts _).1]
        simp [terminalCount, isTerminalEv]
      · rw [respondCount_append, (skipEvents_counts _).2]
        simp [respondCount, isRespondEv]
      · rw [terminalCount_append, (skipEvents_counts _).1]
        simp [terminalCount, isTerminalEv]
      · rw [respondCount_append, (skipEvents_counts _).2]
        simp [respondCount, isRespondEv]
    · exact ⟨rfl, by simp [terminalCount, isTerminalEv, isRespondEv],
        by simp [respondCount, isTerminalEv, isRespondEv]⟩

/-- Helper: the inner-catch fallback paths are well-behaved. -/
theorem generalCatchOut_good (st : Stores) (frm stdFrm : Str) (now : Nat) :
    GoodRun (generalCatchOut st frm stdFrm now) := by
  refine ⟨rfl, ?_, ?_⟩ <;>
    simp [generalCatchOut, sendMainMenu, terminalCount, respondCount, isTerminalEv, isRespondEv]

theorem disambigFallbackOut_good (st : Stores) (frm : Str) (now : Nat) :
    GoodRun (disambigFallbackOut st frm now) := by
  refine ⟨rfl, ?_, ?_⟩ <;>
    simp [disambigFallbackOut, sendMainMenu, terminalCount, respondCount, isTerminalEv, isRespondEv]

theorem generalTryDispatch_good (env : Env) (st : Stores) (frm stdFrm : Str) (now : Nat)
    (h : HandlerId) (b : Str) : GoodRun (generalTryDispatch env st frm stdFrm now h b) := by
  unfold generalTryDispatch
  split
  · exact ⟨rfl, by simp [terminalCount, isTerminalEv], by simp [respondCount, isRespondEv]⟩
  · exact generalCatchOut_good st frm stdFrm now

theorem dispatchTo_good (env : Env) (st : Stores) (h : HandlerId) (b : Str)
    (hff : env.handlerFault h = none) : GoodRun (dispatchTo env st h b) := by
  unfold dispatchTo
  rw [hff]
  exact ⟨rfl, by simp [terminalCount, isTerminalEv], by simp [respondCount, isRespondEv]⟩

/-- Helper: the general-disambiguation resolution stage is well-behaved
(its dispatches sit inside the stage's try/catch, so this needs no
fault-freeness at all). -/
theorem part0general_good (env : Env) (st : Stores) (req : Req) (u : UserSession) :
    GoodRun (part0general env st req u) := by
  unfold part0general
  dsimp only
  split
  · exact ⟨rfl, by simp [terminalCount, isTerminalEv], by simp [respondCount, isRespondEv]⟩
  · split
    · exact ⟨rfl, by simp [terminalCount, isTerminalEv], by simp [respondCount, isRespondEv]⟩
    · split
      · exact generalCatchOut_good _ _ _ _
      · split
        · exact generalTryDispatch_good _ _ _ _ _ _ _
        · split
          · exact ⟨rfl, by simp [terminalCount, isTerminalEv], by simp [respondCount, isRespondEv]⟩
          · exact disambigFallbackOut_good _ _ _
        · exact generalTryDispatch_good _ _ _ _ _ _ _
        · exact generalTryDispatch_good _ _ _ _ _ _ _
        · split
          · exact generalCatchOut_good _ _ _ _
          · split
            · exact generalTryDispatch_good _ _ _ _ _ _ _
            · split
              · exact generalTryDispatch_good _ _ _ _ _ _ _
              · split
                · exact generalTryDispatch_good _ _ _ _ _ _ _
                · exact disambigFallbackOut_good _ _ _
        · exact disambigFallbackOut_good _ _ _

/-- Helper: the PART 0 stage is well-behaved when it intercepts. -/
theorem part0_good (env : Env) (st : Stores) (req : Req)
    (hff : ∀ h, env.handlerFault h = none) :
    ∀ r, part0 env st req = some r → GoodRun r := by
  intro r h
  unfold part0 at h
  dsimp only at h
  repeat' split at h
  all_goals try cases h
  all_goals try (injection h with h; subst h)
  all_goals first
    | exact part0rvc_good env st req _ hff
    | exact part0general_good env st req _

/-- Helper: the conflict-detection / fast-path stage is well-behaved when
it intercepts. -/
theorem part12_good (env : Env) (st : Stores) (req : Req)
    (hff : ∀ h, env.handlerFault h = none) :
    ∀ r, part12 env st req = some r → GoodRun r := by
  intro r h
  unfold part12 at h
  dsimp only at h
  rcases h1 : part1 st req (detectConversationConflicts (standardizePhoneNumber req.From) st
      (msingle (standardizePhoneNumber req.From) (st.checkIns (standardizePhoneNumber req.From)))
      env.reminderAtDetect) with _ | r1
  · rw [h1] at h
    have h2 : part2 env st req (st.checkIns (standardizePhoneNumber req.From))
        (detectConversationConflicts (standardizePhoneNumber req.From) st
          (msingle (standardizePhoneNumber req.From) (st.checkIns (standardizePhoneNumber req.From)))
          env.reminderAtDetect) = some r := h
    clear h
    unfold part2 at h2
    dsimp only at h2
    repeat' split at h2
    all_goals try cases h2
    all_goals try (injection h2 with h2; subst h2)
    all_goals exact ⟨rfl, by simp [terminalCount, isTerminalEv], by simp [respondCount, isRespondEv]⟩
  · rw [h1] at h
    injection h with h
    subst h
    unfold part1 at h1
    dsimp only at h1
    repeat' split at h1
    all_goals try cases h1
    all_goals try (injection h1 with h1; subst h1)
    all_goals exact ⟨rfl, by simp [terminalCount, isTerminalEv], by simp [respondCount, isRespondEv]⟩

/-- Helper: the continuation cascade is well-behaved when it
intercepts. -/
theorem part3user_good (env : Env) (st : Stores) (req : Req) (u? : Option UserSession)
    (hff : ∀ h, env.handlerFault h = none) :
    ∀ r, part3user env st req u? = some r → GoodRun r := by
  intro r h
  unfold part3user at h
  repeat' split at h
  all_goals try cases h
  all_goals try (injection h with h; subst h)
  all_goals exact dispatchTo_good env st _ _ (hff _)

theorem part3_good (env : Env) (st : Stores) (req : Req)
    (hff : ∀ h, env.handlerFault h = none) :
    ∀ r, part3 env st req = some r → GoodRun r := by
  intro r h
  unfold part3 at h
  dsimp only at h
  repeat' split at h
  all_goals try cases h
  all_goals try (injection h with h; subst h)
  all_goals first
    | exact dispatchTo_good env st _ _ (hff _)
    | exact part3user_good env st req _ hff _ h
    | exact part3user_good env st req _ hff _ rfl

/-- Helper: the check-in probe stage is well-behaved when it
intercepts. -/
theorem part4_good (env : Env) (st : Stores) (req : Req) :
    ∀ r, part4 env st req = some r → GoodRun r := by
  intro r h
  unfold part4 at h
  dsimp only at h
  repeat' split at h
  all_goals try cases h
  all_goals try (injection h with h; subst h)
  all_goals exact ⟨rfl, by simp [terminalCount, isTerminalEv], by simp [respondCount, isRespondEv]⟩

/-- Helper: the numeric follow-up probe stage is well-behaved when it
intercepts. -/
theorem part5_good (env : Env) (st : Stores) (req : Req) :
    ∀ r, part5 env st req = some r → GoodRun r := by
  intro r h
  unfold part5 at h
  dsimp only at h
  repeat' split at h
  all_goals try cases h
  all_goals try (injection h with h; subst h)
  all_goals exact ⟨rfl, by simp [terminalCount, isTerminalEv], by simp [respondCount, isRespondEv]⟩

/-- Helper: the identity gate stage is well-behaved when it
intercepts. -/
theorem part6_good (env : Env) (st : Stores) (req : Req)
    (hff : ∀ h, env.handlerFault h = none) :
    ∀ r, part6 env st req = some r → GoodRun r := by
  intro r h
  unfold part6 at h
  dsimp only at h
  repeat' split at h
  all_goals try cases h
  all_goals try (injection h with h; subst h)
  all_goals first
    | contradiction
    | exact dispatchTo_good env st _ _ (hff _)
    | exact ⟨rfl, by simp [terminalCount, isTerminalEv], by simp [respondCount, isRespondEv]⟩

/-- Helper: the command-matching stage is well-behaved when it
intercepts, given the proxy service resolves. -/
theorem part7_good (env : Env) (st : Stores) (req : Req)
    (hff : ∀ h, env.handlerFault h = none)
    (hprox : ∃ v, env.proxyResult = Except.ok v) :
    ∀ r, part7 env st req = some r → GoodRun r := by
  intro r h
  obtain ⟨v, hv⟩ := hprox
  unfold part7 at h
  dsimp only at h
  rw [hv] at h
  repeat' split at h
  all_goals try cases h
  all_goals try (injection h with h; subst h)
  all_goals first
    | contradiction
    | exact dispatchTo_good env st _ _ (hff _)
    | (refine ⟨rfl, ?_, ?_⟩ <;>
         simp [sendMainMenu, terminalCount, respondCount, isTerminalEv, isRespondEv])

/-- Helper: the feature-keyword stage is well-behaved when it
intercepts, given the medication-info lookup resolves. -/
theorem part8info_good (env : Env) (st : Stores) (frm : Str)
    (hmed : ∃ v, env.medInfoOutcome = Except.ok v) :
    ∀ r, part8info env st frm = some r → GoodRun r := by
  intro r h
  obtain ⟨v, hv⟩ := hmed
  unfold part8info at h
  rw [hv] at h
  repeat' split at h
  all_goals try cases h
  all_goals try (injection h with h; subst h)
  all_goals first
    | contradiction
    | exact ⟨rfl, by simp [terminalCount, isTerminalEv], by simp [respondCount, isRespondEv]⟩

theorem part8infoGate_good (env : Env) (st : Stores) (frm lower : Str)
    (hmed : ∃ v, env.medInfoOutcome = Except.ok v) :
    ∀ r, part8infoGate env st frm lower = some r → GoodRun r := by
  intro r h
  unfold part8infoGate at h
  split at h
  · exact part8info_good env st frm hmed r h
  · cases h

theorem part8report_good (env : Env) (st : Stores) (frm : Str) :
    ∀ r, part8report env st frm = some r → GoodRun r := by
  intro r h
  unfold part8report at h
  repeat' split at h
  all_goals try cases h
  all_goals try (injection h with h; subst h)
  all_goals exact ⟨rfl, by simp [terminalCount, isTerminalEv], by simp [respondCount, isRespondEv]⟩

theorem part8_good (env : Env) (st : Stores) (req : Req)
    (hff : ∀ h, env.handlerFault h = none)
    (hmed : ∃ v, env.medInfoOutcome = Except.ok v) :
    ∀ r, part8 env st req = some r → GoodRun r := by
  intro r h
  unfold part8 part8core at h
  repeat' split at h
  all_goals try cases h
  all_goals try (injection h with h; subst h)
  all_goals first
    | exact dispatchTo_good env st _ _ (hff _)
    | exact part8infoGate_good env st req.From _ hmed _ h
    | (rename_i heq; exact part8infoGate_good env st req.From _ hmed _ heq)
    | exact part8report_good env st req.From _ h
    | (rename_i heq; exact part8report_good env st req.From _ heq)

/-- Helper: the AI fallback stage is always well-behaved. -/
theorem part9_good (env : Env) (st : Stores) (req : Req) : GoodRun (part9 env st req) :=
  ⟨rfl, by simp [part9, terminalCount, isTerminalEv], by simp [part9, respondCount, isRespondEv]⟩

/-- C1: on any inbound message, any state of the three session kinds (and
the check-in map), and any fault-free answers of the external lookups,
one invocation of the route handler terminates without an escaped
exception, takes exactly one terminal routing decision (a dialog-handler
dispatch or a single prompt), sends exactly one HTTP response, and that
response is a 200. -/
theorem router_single_dispatch (env : Env) (st : Stores) (req : Req)
    (hff : FaultFree env) :
    (runBody env st req).fault = none ∧
    terminalCount (runBody env st req).events = 1 ∧
    respondCount (runBody env st req).events = 1 ∧
    (webhookHandler env st req).status = 200 := by
  obtain ⟨hf, hmed, hprox⟩ := hff
  have hgood : GoodRun (runBody env st req) := by
    unfold runBody
    rcases h0 : part0 env st req with _ | r0
    · rcases h12 : part12 env st req with _ | r12
      · rcases h3 : part3 env st req with _ | r3
        · rcases h4 : part4 env st req with _ | r4
          · rcases h5 : part5 env st req with _ | r5
            · rcases h6 : part6 env st req with _ | r6
              · rcases h7 : part7 env st req with _ | r7
                · rcases h8 : part8 env st req with _ | r8
                  · exact part9_good env st req
                  · exact part8_good env st req hf hmed r8 h8
                · exact part7_good env st req hf hprox r7 h7
              · exact part6_good env st req hf r6 h6
            · exact part5_good env st req r5 h5
          · exact part4_good env st req r4 h4
        · exact part3_good env st req hf r3 h3
      · exact part12_good env st req hf r12 h12
    · exact part0_good env st req hf r0 h0
  refine ⟨hgood.1, hgood.2.1, hgood.2.2, ?_⟩
  unfold webhookHandler
  dsimp only
  rw [hgood.1]

/-- Witness for C1: the greeting "hello" from a known identity with no
sessions routes to the welcome-menu handler, one terminal, one 200. -/
theorem router_single_dispatch_witness :
    FaultFree envBase ∧
    ((runBody envBase storesEmpty reqHello).fault = none ∧
     terminalCount (runBody envBase storesEmpty reqHello).events = 1 ∧
     respondCount (runBody envBase storesEmpty reqHello).events = 1 ∧
     (webhookHandler envBase storesEmpty reqHello).status = 200) := by
  have hff : FaultFree envBase :=
    ⟨fun h => rfl, ⟨none, rfl⟩, ⟨{ success := true, message := "done".data }, rfl⟩⟩
  exact ⟨hff, router_single_dispatch envBase storesEmpty reqHello hff⟩

/-- Helper: an unguarded dispatch either succeeds or escapes having sent
nothing and touched nothing. -/
theorem dispatchTo_fault (env : Env) (st : Stores) (h : HandlerId) (b : Str) (e : Fault)
    (hf : (dispatchTo env st h b).fault = some e) :
    (dispatchTo env st h b).events = [] ∧ (dispatchTo env st h b).stores = st := by
  rcases hh : env.handlerFault h with _ | f
  · have heq : dispatchTo env st h b =
        { stores := st, events := [.terminal (.handler h b), .respond 200] } := by
      unfold dispatchTo; rw [hh]
    rw [heq] at hf
    cases hf
  · have heq : dispatchTo env st h b = { stores := st, events := [], fault := some f } := by
      unfold dispatchTo; rw [hh]
    rw [heq]
    exact ⟨rfl, rfl⟩

/-- Helper: the PART 0 stage never lets an exception escape (all its
dispatches are inside try/catch blocks). -/
theorem part0rvc_fault_none (env : Env) (st : Stores) (req : Req) (u : UserSession) :
    (part0rvc env st req u).fault = none := by
  unfold part0rvc
  dsimp only
  repeat' split
  all_goals rfl

theorem generalCatchOut_fault_none (st : Stores) (frm stdFrm : Str) (now : Nat) :
    (generalCatchOut st frm stdFrm now).fault = none := rfl

theorem disambigFallbackOut_fault_none (st : Stores) (frm : Str) (now : Nat) :
    (disambigFallbackOut st frm now).fault = none := rfl

theorem generalTryDispatch_fault_none (env : Env) (st : Stores) (frm stdFrm : Str)
    (now : Nat) (h : HandlerId) (b : Str) :
    (generalTryDispatch env st frm stdFrm now h b).fault = none := by
  unfold generalTryDispatch
  split
  · rfl
  · exact generalCatchOut_fault_none _ _ _ _

theorem part0general_fault_none (env : Env) (st : Stores) (req : Req) (u : UserSession) :
    (part0general env st req u).fault = none := by
  unfold part0general
  dsimp only
  repeat' split
  all_goals first
    | rfl
    | exact generalCatchOut_fault_none _ _ _ _
    | exact disambigFallbackOut_fault_none _ _ _
    | exact generalTryDispatch_fault_none _ _ _ _ _ _ _

theorem part0_fault_none (env : Env) (st : Stores) (req : Req) :
    ∀ r, part0 env st req = some r → r.fault = none := by
  intro r h
  unfold part0 at h
  dsimp only at h
  repeat' split at h
  all_goals try cases h
  all_goals try (injection h with h; subst h)
  all_goals first
    | exact part0rvc_fault_none env st req _
    | exact part0general_fault_none env st req _

/-- Helper: PART 1/PART 2 never let an exception escape (the fast path's
dispatch is try/catch-guarded). -/
theorem part1_fault_none (st : Stores) (req : Req) (ci : ConflictInfo) :
    ∀ r, part1 st req ci = some r → r.fault = none := by
  intro r h
  unfold part1 at h
  dsimp only at h
  repeat' split at h
  all_goals try cases h
  all_goals try (injection h with h; subst h)
  all_goals rfl

theorem part2_fault_none (env : Env) (st : Stores) (req : Req)
    (aci : Option CheckInSession) (ci : ConflictInfo) :
    ∀ r, part2 env st req aci ci = some r → r.fault = none := by
  intro r h
  unfold part2 at h
  dsimp only at h
  repeat' split at h
  all_goals try cases h
  all_goals try (injection h with h; subst h)
  all_goals rfl

theorem part12_fault_none (env : Env) (st : Stores) (req : Req) :
    ∀ r, part12 env st req = some r → r.fault = none := by
  intro r h
  unfold part12 at h
  dsimp only at h
  rcases h1 : part1 st req (detectConversationConflicts (standardizePhoneNumber req.From) st
      (msingle (standardizePhoneNumber req.From) (st.checkIns (standardizePhoneNumber req.From)))
      env.reminderAtDetect) with _ | r1
  · rw [h1] at h
    exact part2_fault_none env st req _ _ r h
  · rw [h1] at h
    injection h with h
    subst h
    exact part1_fault_none st req _ r1 h1

/-- Helper: the continuation cascade escapes only from a dispatch, with
no sends and no store mutation. -/
theorem part3user_fault (env : Env) (st : Stores) (req : Req) (u? : Option UserSession) :
    ∀ r e, part3user env st req u? = some r → r.fault = some e →
      r.events = [] ∧ r.stores = st := by
  intro r e h hf
  unfold part3user at h
  repeat' split at h
  all_goals try cases h
  all_goals try (injection h with h; subst h)
  all_goals exact dispatchTo_fault env st _ _ e hf

theorem part3_fault (env : Env) (st : Stores) (req : Req) :
    ∀ r e, part3 env st req = some r → r.fault = some e →
      r.events = [] ∧ r.stores = st := by
  intro r e h hf
  unfold part3 at h
  dsimp only at h
  repeat' split at h
  all_goals try cases h
  all_goals try (injection h with h; subst h)
  all_goals first
    | exact dispatchTo_fault env st _ _ e hf
    | exact part3user_fault env st req _ _ e h hf
    | (rename_i heq; exact part3user_fault env st req _ _ e heq hf)

/-- Helper: the two probe stages never escape. -/
theorem part4_fault_none (env : Env) (st : Stores) (req : Req) :
    ∀ r, part4 env st req = some r → r.fault = none := by
  intro r h
  unfold part4 at h
  dsimp only at h
  repeat' split at h
  all_goals try cases h
  all_goals try (injection h with h; subst h)
  all_goals rfl

theorem part5_fault_none (env : Env) (st : Stores) (req : Req) :
    ∀ r, part5 env st req = some r → r.fault = none := by
  intro r h
  unfold part5 at h
  dsimp only at h
  repeat' split at h
  all_goals try cases h
  all_goals try (injection h with h; subst h)
  all_goals rfl

/-- Helper: the identity gate escapes only from its dispatch. -/
theorem part6_fault (env : Env) (st : Stores) (req : Req) :
    ∀ r e, part6 env st req = some r → r.fault = some e →
      r.events = [] ∧ r.stores = st := by
  intro r e h hf
  unfold part6 at h
  dsimp only at h
  repeat' split at h
  all_goals try cases h
  all_goals try (injection h with h; subst h)
  all_goals first
    | exact dispatchTo_fault env st _ _ e hf
    | cases hf

/-- Helper: the command stage escapes only from the proxy call or a
dispatch, with no sends and no store mutation. -/
theorem part7_fault (env : Env) (st : Stores) (req : Req) :
    ∀ r e, part7 env st req = some r → r.fault = some e →
      r.events = [] ∧ r.stores = st := by
  intro r e h hf
  unfold part7 at h
  dsimp only at h
  repeat' split at h
  all_goals try cases h
  all_goals try (injection h with h; subst h)
  all_goals first
    | exact dispatchTo_fault env st _ _ e hf
    | exact ⟨rfl, rfl⟩
    | cases hf

/-- Helper: the feature stage escapes only from the medication-info
lookups or a dispatch, with no sends and no store mutation. -/
theorem part8info_fault (env : Env) (st : Stores) (frm : Str) :
    ∀ r e, part8info env st frm = some r → r.fault = some e →
      r.events = [] ∧ r.stores = st := by
  intro r e h hf
  unfold part8info at h
  repeat' split at h
  all_goals try cases h
  all_goals try (injection h with h; subst h)
  all_goals first
    | exact ⟨rfl, rfl⟩
    | cases hf

theorem part8infoGate_fault (env : Env) (st : Stores) (frm lower : Str) :
    ∀ r e, part8infoGate env st frm lower = some r → r.fault = some e →
      r.events = [] ∧ r.stores = st := by
  intro r e h hf
  unfold part8infoGate at h
  split at h
  · exact part8info_fault env st frm r e h hf
  · cases h

theorem part8report_fault_none (env : Env) (st : Stores) (frm : Str) :
    ∀ r, part8report env st frm = some r → r.fault = none := by
  intro r h
  unfold part8report at h
  repeat' split at h
  all_goals try cases h
  all_goals try (injection h with h; subst h)
  all_goals rfl

theorem part8_fault (env : Env) (st : Stores) (req : Req) :
    ∀ r e, part8 env st req = some r → r.fault = some e →
      r.events = [] ∧ r.stores = st := by
  intro r e h hf
  unfold part8 part8core at h
  repeat' split at h
  all_goals try cases h
  all_goals try (injection h with h; subst h)
  all_goals first
    | exact dispatchTo_fault env st _ _ e hf
    | exact part8infoGate_fault env st req.From _ _ e h hf
    | (rename_i heq; exact part8infoGate_fault env st req.From _ _ e heq hf)
    | (rw [part8report_fault_none env st req.From _ h] at hf; cases hf)
    | (rename_i heq; rw [part8report_fault_none env st req.From _ heq] at hf; cases hf)

/-- C9: every exception escaping a routing stage is caught exactly once
at the route boundary: the invocation then answers 500, the only message
sent in the whole invocation is the fixed generic apology (no diagnostic
text — `apologyText` is a constant independent of the fault), and the
session stores are exactly as they were before the invocation, so the
error path never leaves behind a disambiguation session (those are
written only on the success paths of the conflict-resolution and
fast-path stages, which answer 200). -/
theorem router_error_boundary (env : Env) (st : Stores) (req : Req) (e : Fault)
    (hf : (runBody env st req).fault = some e) :
    (webhookHandler env st req).status = 500 ∧
    (webhookHandler env st req).events = [.sent req.From apologyText, .respond 500] ∧
    (webhookHandler env st req).stores = st ∧
    (∀ k, (webhookHandler env st req).stores.userSessions k = st.userSessions k) ∧
    (runBody env st req).events = [] := by
  have hempty : (runBody env st req).events = [] ∧ (runBody env st req).stores = st := by
    unfold runBody at hf ⊢
    rcases h0 : part0 env st req with _ | r0 <;> rw [h0] at hf
    · rcases h12 : part12 env st req with _ | r12 <;> rw [h12] at hf
      · rcases h3 : part3 env st req with _ | r3 <;> rw [h3] at hf
        · rcases h4 : part4 env st req with _ | r4 <;> rw [h4] at hf
          · rcases h5 : part5 env st req with _ | r5 <;> rw [h5] at hf
            · rcases h6 : part6 env st req with _ | r6 <;> rw [h6] at hf
              · rcases h7 : part7 env st req with _ | r7 <;> rw [h7] at hf
                · rcases h8 : part8 env st req with _ | r8 <;> rw [h8] at hf
                  · cases hf
                  · exact part8_fault env st req r8 e h8 hf
                · exact part7_fault env st req r7 e h7 hf
              · exact part6_fault env st req r6 e h6 hf
            · rw [part5_fault_none env st req r5 h5] at hf
              cases hf
          · rw [part4_fault_none env st req r4 h4] at hf
            cases hf
        · exact part3_fault env st req r3 e h3 hf
      · rw [part12_fault_none env st req r12 h12] at hf
        cases hf
    · rw [part0_fault_none env st req r0 h0] at hf
      cases hf
  have hweb : webhookHandler env st req =
      { stores := (runBody env st req).stores,
        events := (runBody env st req).events ++ [.sent req.From apologyText, .respond 500],
        status := 500 } := by
    unfold webhookHandler
    dsimp only
    rw [hf]
  rw [hweb, hempty.1, hempty.2]
  exact ⟨rfl, rfl, rfl, fun k => rfl, rfl⟩

/-- Witness for C9: a throwing account-creation continuation handler is
caught at the boundary — 500, one apology, stores untouched. -/
theorem router_error_boundary_witness :
    (runBody envAcctFault storesAcct reqHello).fault = some (.err "boom".data) ∧
    ((webhookHandler envAcctFault storesAcct reqHello).status = 500 ∧
     (webhookHandler envAcctFault storesAcct reqHello).events =
       [.sent reqHello.From apologyText, .respond 500] ∧
     (webhookHandler envAcctFault storesAcct reqHello).stores = storesAcct ∧
     (∀ k, (webhookHandler envAcctFault storesAcct reqHello).stores.userSessions k =
        storesAcct.userSessions k) ∧
     (runBody envAcctFault storesAcct reqHello).events = []) := by
  have hf : (runBody envAcctFault storesAcct reqHello).fault = some (.err "boom".data) := by
    decide
  exact ⟨hf, router_error_boundary envAcctFault storesAcct reqHello (.err "boom".data) hf⟩

/-- C3 counterexample: with BOTH an active (initial) check-in and a fresh
unresponded reminder visible to both lookups, the message "yes" does NOT
produce the two-option reminder-vs-check-in question: conflict detection
flags a conflict, `handleDisambiguation` auto-resolves "yes" to the
reminder, and the fast path's ask-branch is guarded by
`!conflictInfo.hasConflict`, so the router dispatches straight to
medication-taken handling. -/
theorem rvc_question_not_asked_counterexample :
    checkInActiveNotCompleted (storesCheckIn.checkIns (standardizePhoneNumber reqYes.From)) = true ∧
    envReminder.reminderAtDetect = some remAspirin ∧
    envReminder.reminderAtFastPath = some remAspirin ∧
    respondedTruthy remAspirin.responded = false ∧
    (runBody envReminder storesCheckIn reqYes).events =
      [.terminal (.handler .handleMedicationTaken "yes".data), .respond 200] ∧
    (runBody envReminder storesCheckIn reqYes).events.all
      (fun e => e ≠ .terminal (.reply .rvcAsk)) = true := by
  decide

/-- C4 counterexample: the reply "1abc" is not numeric, yet
`parseInt`-based resolution accepts it as index 1, deletes the pending
disambiguation session and re-dispatches the stored original text — the
claimed re-prompt-and-leave-unchanged behaviour does not happen. -/
theorem disambiguation_index_lenient_counterexample :
    isAllDigits (jsTrim reqOneAbc.Body) = false ∧
    storesGeneral.userSessions "u1".data = some generalSession ∧
    (runBody envBase storesGeneral reqOneAbc).events =
      [.terminal (.handler .continueSymptomAssessment "2".data), .respond 200] ∧
    (runBody envBase storesGeneral reqOneAbc).stores.userSessions "u1".data = none := by
  decide

/-- Helper: with a present check-in and a fresh unresponded reminder at
the detect call, the detector reports a conflict. -/
theorem detect_conflict_of_checkin_reminder (st : Stores) (k : Str) (cs : CheckInSession)
    (r : Reminder) (hk : replaceFirst whatsappPre k = k)
    (hcs : st.checkIns k = some cs) (hr : respondedTruthy r.responded = false) :
    (detectConversationConflicts k st (msingle k (st.checkIns k)) (some r)).hasConflict = true := by
  unfold detectConversationConflicts
  dsimp only
  rw [hk]
  simp only [decide_eq_true_eq, List.length_insertionSort]
  unfold rawConversations
  simp only [msingle, if_pos rfl, hcs, hr, Bool.false_eq_true, if_false, List.length_append]
  rcases st.accountCreationSessions k with _ | a <;>
    rcases st.userSessions k with _ | u0 <;>
      rcases st.medicationSessions k with _ | m0 <;>
        simp <;> omega

/-- Helper: with a fresh unresponded reminder at the detect call, the
sorted active conversations contain a medication_reminder record. -/
theorem detect_has_reminder_record (st : Stores) (k : Str) (r : Reminder)
    (hk : replaceFirst whatsappPre k = k) (hr : respondedTruthy r.responded = false) :
    ∃ m, (detectConversationConflicts k st (msingle k (st.checkIns k))
        (some r)).activeConversations.find?
      (fun c => c.type == ConvType.medication_reminder) = some m := by
  have hmemraw : (⟨ConvType.medication_reminder,
      CONVERSATION_PRIORITIES .medication_reminder, .remD r,
      "Medication reminder (".data ++ r.medicine ++ ")".data⟩ : ActiveConv) ∈
      rawConversations (st.accountCreationSessions k) (st.userSessions k)
        (st.medicationSessions k) ((msingle k (st.checkIns k)) k) (some r) := by
    unfold rawConversations
    simp only [List.mem_append, hr, Bool.false_eq_true, if_false]
    right
    exact List.mem_singleton.mpr rfl
  have hmem : (⟨ConvType.medication_reminder,
      CONVERSATION_PRIORITIES .medication_reminder, .remD r,
      "Medication reminder (".data ++ r.medicine ++ ")".data⟩ : ActiveConv) ∈
      (detectConversationConflicts k st (msingle k (st.checkIns k))
        (some r)).activeConversations := by
    unfold detectConversationConflicts
    dsimp only
    rw [hk]
    exact (List.perm_insertionSort convGE _).mem_iff.mpr hmemraw
  have hsome : ((detectConversationConflicts k st (msingle k (st.checkIns k))
      (some r)).activeConversations.find?
        (fun c => c.type == ConvType.medication_reminder)).isSome := by
    rw [List.find?_isSome]
    exact ⟨_, hmem, by simp⟩
  exact Option.isSome_iff_exists.mp hsome

/-- Helper: on "yes" with a medication_reminder record present,
`handleDisambiguation` auto-resolves (asks nothing), so PART 1 falls
through. -/
theorem part1_none_of_yes_reminder (st : Stores) (req : Req) (k : Str) (r : Reminder)
    (htrim : jsTrim req.Body = "yes".data)
    (hk : replaceFirst whatsappPre k = k)
    (hr : respondedTruthy r.responded = false) :
    part1 st req (detectConversationConflicts k st (msingle k (st.checkIns k)) (some r)) = none := by
  obtain ⟨m, hm⟩ := detect_has_reminder_record st k r hk hr
  have hneeds : (handleDisambiguation (jsTrim req.Body)
      (detectConversationConflicts k st (msingle k (st.checkIns k))
        (some r))).needsDisambiguation = false := by
    unfold handleDisambiguation
    dsimp only
    rw [htrim]
    have hvoc : vocabResponse (jsTrim (jsToLower "yes".data)) = true := by decide
    rw [hvoc]
    split
    · rfl
    · rw [hm]
      rfl
  unfold part1
  dsimp only
  split
  · split
    · rename_i hcond
      rw [hneeds] at hcond
      cases hcond
    · rfl
  · rfl

/-- C3 (amended): (a) when both an active non-completed check-in and a
fresh unresponded reminder are visible to BOTH reminder lookups and the
user sends "yes", the router does NOT ask the reminder-vs-check-in
question: conflict detection auto-resolves to the reminder and the
message is routed directly to medication-taken handling, clearing the
dialog sessions; (b) the two-option question is asked exactly in the
race window where the detect-time lookup saw no reminder (and nothing
else was active) but the fast path's own re-query finds one while the
check-in is active; (c) replying "1" to a pending reminder_vs_checkin
session routes the stored original text to medication-taken/missed
handling, deletes the session under both identity representations and
clears the check-in session; (d) replying "2" routes the stored original
text to check-in processing, marks the reminder skipped (reason "User
chose to respond to check-in instead") and deletes the session under
both representations. -/
theorem reminder_checkin_resolution :
    (∀ (env : Env) (st : Stores) (req : Req) (r : Reminder),
      standardizePhoneNumber req.From = req.From →
      jsTrim req.Body = "yes".data →
      env.reminderAtDetect = some r →
      env.reminderAtFastPath = some r →
      respondedTruthy r.responded = false →
      checkInActiveNotCompleted (st.checkIns req.From) = true →
      isDisambigSession (st.userSessions req.From) = false →
      env.handlerFault .handleMedicationTaken = none →
        (runBody env st req).events =
          [.terminal (.handler .handleMedicationTaken req.Body), .respond 200] ∧
        (runBody env st req).stores.userSessions req.From = none) ∧
    (∀ (env : Env) (st : Stores) (req : Req) (r : Reminder) (cs : CheckInSession),
      standardizePhoneNumber req.From = req.From →
      jsTrim req.Body = "yes".data →
      st.accountCreationSessions req.From = none →
      st.userSessions req.From = none →
      st.medicationSessions req.From = none →
      env.reminderAtDetect = none →
      env.reminderAtFastPath = some r →
      respondedTruthy r.responded = false →
      st.checkIns req.From = some cs →
      cs.conversationState ≠ some "completed".data →
        (runBody env st req).events =
          [.sent req.From (rvcAskText r.medicine), .terminal (.reply .rvcAsk), .respond 200] ∧
        (runBody env st req).stores.userSessions req.From =
          some { type := some "disambiguation".data, stage := some "reminder_vs_checkin".data,
                 reminderData := some r, checkInData := some cs,
                 originalResponse := jsTrim req.Body, timestamp := some req.now }) ∧
    (∀ (env : Env) (st : Stores) (req : Req) (u : UserSession),
      st.userSessions req.From = some u →
      u.type = some "disambiguation".data →
      u.stage = some "reminder_vs_checkin".data →
      jsTrim req.Body = "1".data →
      (∀ h, env.handlerFault h = none) →
        (runBody env st req).events =
          [.terminal (.handler
            (if jsToLower u.originalResponse = "yes".data ∨ jsToLower u.originalResponse = "taken".data
             then HandlerId.handleMedicationTaken else HandlerId.handleMedicationMissed)
            u.originalResponse), .respond 200] ∧
        (runBody env st req).stores.userSessions req.From = none ∧
        (runBody env st req).stores.userSessions (standardizePhoneNumber req.From) = none ∧
        (runBody env st req).stores.checkIns (standardizePhoneNumber req.From) = none) ∧
    (∀ (env : Env) (st : Stores) (req : Req) (u : UserSession) (rd : Reminder),
      st.userSessions req.From = some u →
      u.type = some "disambiguation".data →
      u.stage = some "reminder_vs_checkin".data →
      jsTrim req.Body = "2".data →
      u.reminderData = some rd →
      rd.reminderId.isEmpty = false →
      env.checkInRespDisambig.success = true →
        (runBody env st req).events =
          [.reminderSkipped rd.reminderId skipReasonText,
           .terminal (.handler .processCheckInResponse u.originalResponse),
           .sent req.From env.checkInRespDisambig.followUp, .respond 200] ∧
        (runBody env st req).stores.userSessions req.From = none ∧
        (runBody env st req).stores.userSessions (standardizePhoneNumber req.From) = none) := by
  refine ⟨?_, ?_, ?_, ?_⟩
  · -- (a) direct medication dispatch despite double activity
    intro env st req r hstd htrim hdet hfast hresp hchk hnod hffm
    have hstd' : replaceFirst whatsappPre req.From = req.From := hstd
    have hp0 : part0 env st req = none := by
      unfold part0
      dsimp only
      rw [show standardizePhoneNumber req.From = req.From from hstd]
      rcases hu : st.userSessions req.From with _ | u0
      · rfl
      · rw [hu] at hnod
        simp only [isDisambigSession] at hnod
        rw [beq_eq_false_iff_ne] at hnod
        simp [hnod]
    have hp1 : part1 st req (detectConversationConflicts req.From st
        (msingle req.From (st.checkIns req.From)) env.reminderAtDetect) = none := by
      rw [hdet]
      exact part1_none_of_yes_reminder st req req.From r htrim hstd' hresp
    obtain ⟨cs, hcs⟩ : ∃ cs, st.checkIns req.From = some cs := by
      rcases hcs : st.checkIns req.From with _ | cs
      · rw [hcs] at hchk
        simp [checkInActiveNotCompleted] at hchk
      · exact ⟨cs, rfl⟩
    have hcig : (detectConversationConflicts req.From st
        (msingle req.From (st.checkIns req.From)) env.reminderAtDetect).hasConflict = true := by
      rw [hdet]
      exact detect_conflict_of_checkin_reminder st req.From cs r hstd' hcs hresp
    have hlow : jsToLower (jsTrim req.Body) = "yes".data := by rw [htrim]; decide
    have hp2 : part2 env st req (st.checkIns req.From)
        (detectConversationConflicts req.From st
          (msingle req.From (st.checkIns req.From)) env.reminderAtDetect) =
        some { stores := deleteUserSession (deleteUserSession st req.From) req.From,
               events := [.terminal (.handler .handleMedicationTaken req.Body), .respond 200] } := by
      unfold part2
      dsimp only
      rw [show standardizePhoneNumber req.From = req.From from hstd]
      rw [hlow]
      rw [show vocabResponse "yes".data = true from by decide]
      rw [hfast]
      simp only [hresp, Bool.false_eq_true, if_false, hcig, Bool.not_true, Bool.and_false,
        if_true]
      simp only [true_or, if_true]
      rw [hffm]
    have hp12 : part12 env st req =
        some { stores := deleteUserSession (deleteUserSession st req.From) req.From,
               events := [.terminal (.handler .handleMedicationTaken req.Body), .respond 200] } := by
      unfold part12
      dsimp only
      rw [show standardizePhoneNumber req.From = req.From from hstd]
      rw [hp1]
      exact hp2
    have hrb : runBody env st req =
        { stores := deleteUserSession (deleteUserSession st req.From) req.From,
          events := [.terminal (.handler .handleMedicationTaken req.Body), .respond 200] } := by
      unfold runBody
      rw [hp0, hp12]
    rw [hrb]
    refine ⟨rfl, ?_⟩
    simp [deleteUserSession, mdel]
  · -- (b) the ask happens exactly in the race window
    intro env st req r cs hstd htrim hacct husr hmed hdet hfast hresp hcs hstate
    have hstd' : replaceFirst whatsappPre req.From = req.From := hstd
    have hp0 : part0 env st req = none := by
      unfold part0
      dsimp only
      rw [show standardizePhoneNumber req.From = req.From from hstd, husr]
    have hci0 : (detectConversationConflicts req.From st
        (msingle req.From (st.checkIns req.From)) env.reminderAtDetect).hasConflict = false := by
      unfold detectConversationConflicts
      dsimp only
      rw [hstd']
      simp only [decide_eq_true_eq, List.length_insertionSort]
      unfold rawConversations
      simp [msingle, hacct, husr, hmed, hdet, hcs]
    have hp1 : part1 st req (detectConversationConflicts req.From st
        (msingle req.From (st.checkIns req.From)) env.reminderAtDetect) = none := by
      unfold part1
      dsimp only
      rw [hci0]
      simp
    have hlow : jsToLower (jsTrim req.Body) = "yes".data := by rw [htrim]; decide
    have hchk2 : checkInActiveNotCompleted (st.checkIns req.From) = true := by
      rw [hcs]
      simp [checkInActiveNotCompleted, hstate]
    have hp2 : part2 env st req (st.checkIns req.From)
        (detectConversationConflicts req.From st
          (msingle req.From (st.checkIns req.From)) env.reminderAtDetect) =
        some { stores := setUserSession st req.From
                 { type := some "disambiguation".data, stage := some "reminder_vs_checkin".data,
                   reminderData := some r, checkInData := st.checkIns req.From,
                   originalResponse := jsTrim req.Body } req.now,
               events := [.sent req.From (rvcAskText r.medicine),
                 .terminal (.reply .rvcAsk), .respond 200] } := by
      unfold part2
      dsimp only
      rw [show standardizePhoneNumber req.From = req.From from hstd]
      rw [hlow]
      rw [show vocabResponse "yes".data = true from by decide]
      rw [hfast]
      simp only [hresp, Bool.false_eq_true, if_false, hci0, Bool.not_false, hchk2,
        Bool.and_true, if_true]
      simp
    have hp12 : part12 env st req =
        some { stores := setUserSession st req.From
                 { type := some "disambiguation".data, stage := some "reminder_vs_checkin".data,
                   reminderData := some r, checkInData := st.checkIns req.From,
                   originalResponse := jsTrim req.Body } req.now,
               events := [.sent req.From (rvcAskText r.medicine),
                 .terminal (.reply .rvcAsk), .respond 200] } := by
      unfold part12
      dsimp only
      rw [show standardizePhoneNumber req.From = req.From from hstd]
      rw [hp1]
      exact hp2
    have hrb : runBody env st req =
        { stores := setUserSession st req.From
            { type := some "disambiguation".data, stage := some "reminder_vs_checkin".data,
              reminderData := some r, checkInData := st.checkIns req.From,
              originalResponse := jsTrim req.Body } req.now,
          events := [.sent req.From (rvcAskText r.medicine),
            .terminal (.reply .rvcAsk), .respond 200] } := by
      unfold runBody
      rw [hp0, hp12]
    rw [hrb]
    refine ⟨rfl, ?_⟩
    simp [setUserSession, mset, hcs]
  · -- (c) pending reminder_vs_checkin session, reply "1"
    intro env st req u hu hut hus htrim hff
    have hp0 : part0 env st req = some (part0rvc env st req u) := by
      unfold part0
      dsimp only
      rw [hu]
      simp [hut, hus]
    have hrb : runBody env st req = part0rvc env st req u := by
      unfold runBody
      rw [hp0]
    rw [hrb]
    unfold part0rvc
    dsimp only
    rw [htrim]
    simp only [if_pos rfl]
    rw [hff]
    refine ⟨rfl, ?_, ?_, ?_⟩ <;>
      simp [clearActiveCheckInSession, deleteUserSession, mdel]
  · -- (d) pending reminder_vs_checkin session, reply "2"
    intro env st req u rd hu hut hus htrim hrd hid hsucc
    have hp0 : part0 env st req = some (part0rvc env st req u) := by
      unfold part0
      dsimp only
      rw [hu]
      simp [hut, hus]
    have hrb : runBody env st req = part0rvc env st req u := by
      unfold runBody
      rw [hp0]
    rw [hrb]
    unfold part0rvc
    dsimp only
    rw [htrim]
    rw [if_neg (by decide : ¬ ("2".data : Str) = "1".data)]
    simp only [if_pos rfl]
    rw [hsucc]
    simp only [if_true]
    unfold skipEvents
    rw [hrd]
    simp only [hid, Bool.false_eq_true, if_false]
    refine ⟨rfl, ?_, ?_⟩ <;> simp [deleteUserSession, mdel]

/-- Witness for the amended C3: concrete double-activity "yes" routes to
the medication handler, and a concrete pending reminder_vs_checkin
session resolves "1" to the medication handler, clearing the check-in. -/
theorem reminder_checkin_resolution_witness :
    ((runBody envReminder storesCheckIn reqYes).events =
       [.terminal (.handler .handleMedicationTaken reqYes.Body), .respond 200] ∧
     (runBody envReminder storesCheckIn reqYes).stores.userSessions reqYes.From = none) ∧
    ((runBody envBase storesRvc reqOne).events =
       [.terminal (.handler
         (if jsToLower rvcSession.originalResponse = "yes".data ∨
             jsToLower rvcSession.originalResponse = "taken".data
          then HandlerId.handleMedicationTaken else HandlerId.handleMedicationMissed)
         rvcSession.originalResponse), .respond 200] ∧
     (runBody envBase storesRvc reqOne).stores.userSessions reqOne.From = none ∧
     (runBody envBase storesRvc reqOne).stores.userSessions
       (standardizePhoneNumber reqOne.From) = none ∧
     (runBody envBase storesRvc reqOne).stores.checkIns
       (standardizePhoneNumber reqOne.From) = none) := by
  constructor
  · exact reminder_checkin_resolution.1 envReminder storesCheckIn reqYes remAspirin
      (by decide) (by decide) rfl rfl (by decide) (by decide) (by decide) rfl
  · exact reminder_checkin_resolution.2.2.1 envBase storesRvc reqOne rvcSession
      (by decide) (by decide) (by decide) (by decide) (fun h => rfl)

/-- C4 (amended): a pending general disambiguation session interprets
the next message through JavaScript `parseInt` (leading-integer)
semantics as a 1-based index: a reply with no parseable leading integer,
or parsing out of range, re-prompts and leaves the stores untouched; a
reply parsing to a valid index deletes the disambiguation session under
both identity representations and re-dispatches the STORED ORIGINAL text
to the route implied by the chosen option's kind (`chosenTarget`): a
handler for the five dispatchable kinds, and the fresh-main-menu
fallback replies for anything else (the claimed strict
all-digits-only parsing is refuted separately). -/
theorem disambiguation_round_trip :
    (∀ (env : Env) (st : Stores) (req : Req) (u : UserSession),
      st.userSessions req.From = some u →
      u.type = some "disambiguation".data →
      u.stage = some "general".data →
      (jsParseInt (jsTrim req.Body) = none ∨
       ∃ p, jsParseInt (jsTrim req.Body) = some p ∧
         (p - 1 < 0 ∨ (u.options.length : Int) ≤ p - 1)) →
        (runBody env st req).events =
          [.sent req.From (generalRepromptText u.options.length),
           .terminal (.reply (.generalReprompt u.options.length)), .respond 200] ∧
        (runBody env st req).stores = st) ∧
    (∀ (env : Env) (st : Stores) (req : Req) (u : UserSession) (p : Int) (opt : ActiveConv),
      st.userSessions req.From = some u →
      u.type = some "disambiguation".data →
      u.stage = some "general".data →
      jsParseInt (jsTrim req.Body) = some p →
      ¬ (p - 1 < 0) →
      ¬ ((u.options.length : Int) ≤ p - 1) →
      u.options.get? (p - 1).toNat = some opt →
      (∀ h, env.handlerFault h = none) →
        terminalsOf (runBody env st req).events = [chosenTarget env opt u.originalResponse] ∧
        isDisambigSession ((runBody env st req).stores.userSessions req.From) = false ∧
        isDisambigSession ((runBody env st req).stores.userSessions
          (standardizePhoneNumber req.From)) = false) := by
  constructor
  · intro env st req u hu hut hus hbad
    have hp0 : part0 env st req = some (part0general env st req u) := by
      unfold part0
      dsimp only
      rw [hu]
      simp [hut, hus]
    have hrb : runBody env st req = part0general env st req u := by
      unfold runBody
      rw [hp0]
    rw [hrb]
    unfold part0general
    dsimp only
    rcases hbad with hnone | ⟨p, hp, hrange⟩
    · rw [hnone]
      exact ⟨rfl, rfl⟩
    · rw [hp]
      dsimp only
      rw [if_pos hrange]
      exact ⟨rfl, rfl⟩
  · intro env st req u p opt hu hut hus hp hlow hhigh hopt hff
    have hp0 : part0 env st req = some (part0general env st req u) := by
      unfold part0
      dsimp only
      rw [hu]
      simp [hut, hus]
    have hrb : runBody env st req = part0general env st req u := by
      unfold runBody
      rw [hp0]
    rw [hrb]
    unfold part0general
    dsimp only
    rw [hp]
    dsimp only
    rw [if_neg (not_or.mpr ⟨hlow, hhigh⟩)]
    rw [hopt]
    dsimp only
    rcases opt with ⟨ty, pri, data, desc⟩
    cases ty <;> simp only [chosenTarget]
    · -- medication_reminder
      unfold generalTryDispatch
      rw [hff]
      refine ⟨rfl, ?_, ?_⟩ <;>
        simp [deleteUserSession, mdel, isDisambigSession]
    · -- symptom_emergency: fallback
      refine ⟨rfl, ?_, ?_⟩ <;>
        (simp only [disambigFallbackOut, sendMainMenu, setUserSession, mset, deleteUserSession, mdel]; repeat' split; all_goals simp_all [isDisambigSession])
    · -- check_in_response
      rcases hcr : env.checkInRespGeneralChoice.success with _ | _
      · simp only [Bool.false_eq_true, if_false]
        refine ⟨rfl, ?_, ?_⟩ <;>
          (simp only [disambigFallbackOut, sendMainMenu, setUserSession, mset, deleteUserSession, mdel]; repeat' split; all_goals simp_all [isDisambigSession])
      · simp only [if_true]
        refine ⟨rfl, ?_, ?_⟩ <;>
          simp [deleteUserSession, mdel, isDisambigSession]
    · -- symptom_assessment
      unfold generalTryDispatch
      rw [hff]
      refine ⟨rfl, ?_, ?_⟩ <;>
        simp [deleteUserSession, mdel, isDisambigSession]
    · -- medication_management
      rcases hms : dataMedStage data with _ | ms
      · refine ⟨rfl, ?_, ?_⟩ <;>
          (simp only [generalCatchOut, sendMainMenu, setUserSession, mset, deleteUserSession, mdel]; repeat' split; all_goals simp_all [isDisambigSession])
      · dsimp only
        split
        · unfold generalTryDispatch
          rw [hff]
          refine ⟨rfl, ?_, ?_⟩ <;>
            simp [deleteUserSession, mdel, isDisambigSession]
        · split
          · unfold generalTryDispatch
            rw [hff]
            refine ⟨rfl, ?_, ?_⟩ <;>
              simp [deleteUserSession, mdel, isDisambigSession]
          · split
            · unfold generalTryDispatch
              rw [hff]
              refine ⟨rfl, ?_, ?_⟩ <;>
                simp [deleteUserSession, mdel, isDisambigSession]
            · refine ⟨rfl, ?_, ?_⟩ <;>
                (simp only [disambigFallbackOut, sendMainMenu, setUserSession, mset, deleteUserSession, mdel]; repeat' split; all_goals simp_all [isDisambigSession])
    · -- account_creation: fallback
      refine ⟨rfl, ?_, ?_⟩ <;>
        (simp only [disambigFallbackOut, sendMainMenu, setUserSession, mset, deleteUserSession, mdel]; repeat' split; all_goals simp_all [isDisambigSession])
    · -- menu_navigation
      unfold generalTryDispatch
      rw [hff]
      refine ⟨rfl, ?_, ?_⟩ <;>
        simp [deleteUserSession, mdel, isDisambigSession]
    · -- general_query: fallback
      refine ⟨rfl, ?_, ?_⟩ <;>
        (simp only [disambigFallbackOut, sendMainMenu, setUserSession, mset, deleteUserSession, mdel]; repeat' split; all_goals simp_all [isDisambigSession])

/-- Witness for the amended C4: against a stored one-option session,
"2" is out of range (re-prompt, stores untouched) and "1" re-dispatches
the stored original text to the symptom-assessment handler. -/
theorem disambiguation_round_trip_witness :
    ((runBody envBase storesGeneral reqTwo).events =
       [.sent reqTwo.From (generalRepromptText generalSession.options.length),
        .terminal (.reply (.generalReprompt generalSession.options.length)), .respond 200] ∧
     (runBody envBase storesGeneral reqTwo).stores = storesGeneral) ∧
    (terminalsOf (runBody envBase storesGeneral reqOne).events =
       [chosenTarget envBase optSymptom generalSession.originalResponse] ∧
     isDisambigSession ((runBody envBase storesGeneral reqOne).stores.userSessions
       reqOne.From) = false ∧
     isDisambigSession ((runBody envBase storesGeneral reqOne).stores.userSessions
       (standardizePhoneNumber reqOne.From)) = false) := by
  constructor
  · exact disambiguation_round_trip.1 envBase storesGeneral reqTwo generalSession
      (by decide) (by decide) (by decide) (Or.inr ⟨2, by decide, by decide⟩)
  · exact disambiguation_round_trip.2 envBase storesGeneral reqOne generalSession 1 optSymptom
      (by decide) (by decide) (by decide) (by decide) (by decide) (by decide) (by decide)
      (fun h => rfl)
